import Mathlib

/-!
Shallow embedding of the welcomer bot's core (channel_manager.py, state.py,
config.py) and proofs about its channel-rotation state machine.

Modelling conventions:
* Python strings are Lean `String`s; Python's `str.startswith` is embedded as
  character-sequence prefix (`List.isPrefixOf` on `String.data`).
* Python `int` is `Int`.
* Python sets are duplicate-free `List String` (add = `List.insert`,
  discard = `List.filter`).
* The Slack client is an oracle `Env` of response functions; every client call
  is recorded in a trace (`World.calls`).  The `slack_sdk` raises
  `SlackApiError` on an error response; this is modelled by an `Except`-style
  result threaded through `Res`, with `Exn.slack` for `SlackApiError` and
  `Exn.storage` for a storage-backend (Redis connectivity) failure.  `try`
  blocks that catch `SlackApiError` are modelled by matching on the result.
* `time.sleep` and logging are no-ops and are dropped.
* The state backend holds one `BotState` record with the rotation fields and
  both user sets (as `InMemoryState` keeps them); `get_state` yields a
  snapshot of it and `save_state` replaces it wholesale, which is how
  `RedisState` behaves.  `InMemoryState.get_state` instead hands out a live
  reference, so in-place mutations never followed by `save_state` (the
  failed-rotation path) do reach its backing store; theorems therefore draw
  no store-equality conclusion across that path.
* The unbounded `while True` pagination loop of `_find_existing_channel` takes
  an explicit page `fuel`; running out of fuel returns the state unchanged
  (in Python the loop would simply keep consuming pages).
-/

deriving instance DecidableEq for Except

namespace Welcomer

/-- Rotation state plus the two user sets, as in `state.py` (`BotState`). -/
structure BotState where
  current_channel_number : Int := 1
  current_channel_id : Option String := none
  current_count : Int := 0
  processed_users : List String := []
  pending_guests : List String := []
deriving Repr, DecidableEq

/-- Error payload of a `SlackApiError` (its `response["error"]` string). -/
structure SlackError where
  error : String
deriving Repr, DecidableEq

/-- Exceptions that can propagate through the model: a Slack API error or a
storage-backend connectivity failure. -/
inductive Exn where
  | slack (e : SlackError)
  | storage
deriving Repr, DecidableEq

/-- One channel record as returned by `conversations_list`. -/
structure SlackChannel where
  id : String
  name : String
  is_archived : Bool
deriving Repr, DecidableEq

/-- A platform (Slack client) call, recorded in the call trace. -/
inductive ApiCall where
  | createChannel (name : String)
  | listChannels (cursor : Option String)
  | joinChannel (channel : String)
  | inviteUser (channel user : String)
  | unarchiveChannel (channel : String)
  | channelInfo (channel : String)
  | postMessage (channel : String)
  | pinMessage (channel : String)
  | postEphemeral (channel user : String)
deriving Repr, DecidableEq

/-- Configuration (from `config.py`) together with the platform oracle: one
response function per Slack client method.  `listResp` and `inviteResp` also
take the retry-attempt index so that rate-limit-then-succeed scripts can be
expressed.  `storageOk` is false when the storage backend is unreachable. -/
structure Env where
  BATCH_SIZE : Int
  CHANNEL_STEM : String
  DEFAULT_CHANNELS : List String
  OPTIN_CHANNELS : List String
  OPTIN_PROMPT_CHANNEL : String
  PIN_WELCOME_MESSAGE : Bool
  createResp : String → Except SlackError String
  listResp : Option String → Nat → Except SlackError (List SlackChannel × Option String)
  joinResp : String → Except SlackError Unit
  inviteResp : String → String → Nat → Except SlackError Unit
  unarchiveResp : String → Except SlackError Unit
  infoResp : String → Except SlackError (Option Int)
  postMessageResp : String → Except SlackError (Option String)
  pinResp : String → Except SlackError Unit
  ephemeralResp : String → String → Except SlackError Unit
  storageOk : Bool

/-- The world a run threads: the backend's stored state and the platform call
trace. -/
structure World where
  store : BotState
  calls : List ApiCall
deriving Repr, DecidableEq

/-- Result of a (possibly raising) model computation. -/
def Res (α : Type) := Except Exn α × World

/-- Sequencing that propagates a raised exception, as Python control flow
does. -/
def mbind {α β : Type} (x : Res α) (f : α → World → Res β) : Res β :=
  match x with
  | (.ok a, w) => f a w
  | (.error e, w) => (.error e, w)

/-- Perform one Slack client call: record it in the trace and either return
the oracle's value or raise `Exn.slack` (the SDK raises `SlackApiError`). -/
def apiCall {α : Type} (w : World) (c : ApiCall) (r : Except SlackError α) : Res α :=
  let w' : World := { w with calls := w.calls ++ [c] }
  match r with
  | .ok a => (.ok a, w')
  | .error e => (.error (Exn.slack e), w')

/-- Backend `get_state` (raises `Exn.storage` when the backend is down). -/
def stGetState (env : Env) (w : World) : Res BotState :=
  if env.storageOk then (.ok w.store, w) else (.error .storage, w)

/-- Backend `save_state`: full replace, as in `InMemoryState`. -/
def stSaveState (env : Env) (s : BotState) (w : World) : Res Unit :=
  if env.storageOk then (.ok (), { w with store := s }) else (.error .storage, w)

/-- Backend `is_user_processed`. -/
def stIsProcessed (env : Env) (user_id : String) (w : World) : Res Bool :=
  if env.storageOk then (.ok (user_id ∈ w.store.processed_users), w)
  else (.error .storage, w)

/-- Backend `mark_user_processed`. -/
def stMarkProcessed (env : Env) (user_id : String) (w : World) : Res Unit :=
  if env.storageOk then
    (.ok (), { w with store :=
      { w.store with processed_users := w.store.processed_users.insert user_id } })
  else (.error .storage, w)

/-- Backend `add_pending_guest`. -/
def stAddPendingGuest (env : Env) (user_id : String) (w : World) : Res Unit :=
  if env.storageOk then
    (.ok (), { w with store :=
      { w.store with pending_guests := w.store.pending_guests.insert user_id } })
  else (.error .storage, w)

/-- Backend `remove_pending_guest`. -/
def stRemovePendingGuest (env : Env) (user_id : String) (w : World) : Res Unit :=
  if env.storageOk then
    (.ok (), { w with store :=
      { w.store with pending_guests :=
          w.store.pending_guests.filter (fun x => x ≠ user_id) } })
  else (.error .storage, w)

/-- Backend `is_pending_guest`. -/
def stIsPendingGuest (env : Env) (user_id : String) (w : World) : Res Bool :=
  if env.storageOk then (.ok (user_id ∈ w.store.pending_guests), w)
  else (.error .storage, w)

/-- Python truthiness of the optional `current_channel_id` string (`None` and
the empty string are falsy). -/
def truthyId (o : Option String) : Bool :=
  o.getD "" ≠ ""

/-- Embedding of Python's `str.startswith`: character-sequence prefix. -/
def strStartsWith (s p : String) : Bool :=
  p.data.isPrefixOf s.data

/-- `Config.get_channel_name` from `config.py`. -/
def get_channel_name (env : Env) (number : Int) : String :=
  if number == 1 then env.CHANNEL_STEM
  else env.CHANNEL_STEM ++ "-" ++ toString (number - 1)

/-- `Config.is_welcome_channel_name` from `config.py`. -/
def is_welcome_channel_name (env : Env) (name : String) : Bool :=
  if name == env.CHANNEL_STEM then true
  else strStartsWith name (env.CHANNEL_STEM ++ "-")

/-- Python truthy invite results: `True`, `False` or the string `"guest"`. -/
inductive InviteRet where
  | pyTrue
  | pyFalse
  | pyGuest
deriving Repr, DecidableEq

/-- `ChannelManager._ensure_bot_in_channel`: join the channel, tolerating
`already_in_channel`; any other `SlackApiError` yields `false`. -/
def ensure_bot_in_channel (env : Env) (channel_id : String) (w : World) : Res Bool :=
  match apiCall w (.joinChannel channel_id) (env.joinResp channel_id) with
  | (.ok _, w) => (.ok true, w)
  | (.error (.slack e), w) =>
      if e.error == "already_in_channel" then (.ok true, w) else (.ok false, w)
  | (.error .storage, w) => (.error .storage, w)

/-- Retry loop of `ChannelManager._invite_user` (`for attempt in range(3)`),
structurally recursive on the remaining iteration count; the sleep on
`ratelimited` is a no-op here.  Exhausting the loop returns `False`. -/
def invite_loop (env : Env) (channel_id user_id : String) :
    Nat → Nat → World → Res InviteRet
  | 0, _, w => (.ok .pyFalse, w)
  | rem + 1, attempt, w =>
      match apiCall w (.inviteUser channel_id user_id)
          (env.inviteResp channel_id user_id attempt) with
      | (.ok _, w) => (.ok .pyTrue, w)
      | (.error (.slack e), w) =>
          if e.error == "already_in_channel" then (.ok .pyTrue, w)
          else if e.error == "ratelimited" then
            invite_loop env channel_id user_id rem (attempt + 1) w
          else if e.error == "user_is_restricted" || e.error == "user_is_ultra_restricted" then
            mbind (stAddPendingGuest env user_id w) (fun _ w => (.ok .pyGuest, w))
          else if e.error == "cant_invite_self" || e.error == "user_not_found" ||
              e.error == "method_not_supported_for_channel_type" then
            (.ok .pyTrue, w)
          else (.ok .pyFalse, w)
      | (.error .storage, w) => (.error .storage, w)

/-- `ChannelManager._invite_user`: first ensure the bot is in the channel,
then run the 3-iteration invite retry loop. -/
def invite_user (env : Env) (channel_id user_id : String) (w : World) : Res InviteRet :=
  mbind (ensure_bot_in_channel env channel_id w) (fun ok w =>
    if ok then invite_loop env channel_id user_id 3 0 w else (.ok .pyFalse, w))

/-- Loop body of `ChannelManager.add_user_to_default_channels`: results are
only logged, never acted upon. -/
def default_channels_go (env : Env) (user_id : String) :
    List String → World → Res Unit
  | [], w => (.ok (), w)
  | c :: cs, w =>
      mbind (invite_user env c user_id w) (fun _ w =>
        default_channels_go env user_id cs w)

/-- `ChannelManager.add_user_to_default_channels`. -/
def add_user_to_default_channels (env : Env) (user_id : String) (w : World) : Res Unit :=
  default_channels_go env user_id env.DEFAULT_CHANNELS w

/-- Loop body of `ChannelManager.send_optin_prompts`: one ephemeral prompt per
opt-in channel, every `SlackApiError` caught and logged. -/
def optin_go (env : Env) (user_id : String) : List String → World → Res Unit
  | [], w => (.ok (), w)
  | _c :: cs, w =>
      match apiCall w (.postEphemeral env.OPTIN_PROMPT_CHANNEL user_id)
          (env.ephemeralResp env.OPTIN_PROMPT_CHANNEL user_id) with
      | (.ok _, w) => optin_go env user_id cs w
      | (.error _, w) => optin_go env user_id cs w

/-- `ChannelManager.send_optin_prompts`. -/
def send_optin_prompts (env : Env) (user_id : String) (w : World) : Res Unit :=
  optin_go env user_id env.OPTIN_CHANNELS w

/-- `ChannelManager._post_welcome_message`: post, optionally pin; all
`SlackApiError`s are caught internally (an empty `ts` is falsy in Python). -/
def post_welcome_message (env : Env) (channel_id : String) (w : World) : Res Unit :=
  match apiCall w (.postMessage channel_id) (env.postMessageResp channel_id) with
  | (.ok ts, w) =>
      if env.PIN_WELCOME_MESSAGE && ts.getD "" ≠ "" then
        match apiCall w (.pinMessage channel_id) (env.pinResp channel_id) with
        | (_, w) => (.ok (), w)
      else (.ok (), w)
  | (.error _, w) => (.ok (), w)

/-- Inner `for attempt in range(3)` of `_find_existing_channel` around
`conversations_list`: `some page` on success, `none` when the retries are
exhausted (the `for`-`else` branch); a non-rate-limit error is re-raised. -/
def list_channels_retry (env : Env) (cursor : Option String) :
    Nat → Nat → World → Res (Option (List SlackChannel × Option String))
  | 0, _, w => (.ok none, w)
  | rem + 1, attempt, w =>
      match apiCall w (.listChannels cursor) (env.listResp cursor attempt) with
      | (.ok page, w) => (.ok (some page), w)
      | (.error (.slack e), w) =>
          if e.error == "ratelimited" then
            list_channels_retry env cursor rem (attempt + 1) w
          else (.error (.slack e), w)
      | (.error .storage, w) => (.error .storage, w)

/-- Tail of `_find_existing_channel` once the matching channel is in hand:
ensure the bot is a member (result ignored), set `current_channel_id`, seed
`current_count` from `conversations_info` (field default 1, floored at 0) and
persist.  A `SlackApiError` from the info call reaches the function's outer
`except`, which returns the state mutated so far (id set, count unseeded). -/
def seed_from_channel (env : Env) (state : BotState) (cid : String) (w : World) :
    Res BotState :=
  mbind (ensure_bot_in_channel env cid w) (fun _ w =>
    let state1 := { state with current_channel_id := some cid }
    match apiCall w (.channelInfo cid) (env.infoResp cid) with
    | (.ok nm, w) =>
        let state2 := { state1 with current_count := max 0 ((nm.getD 1) - 1) }
        mbind (stSaveState env state2 w) (fun _ w => (.ok state2, w))
    | (.error (.slack _), w) => (.ok state1, w)
    | (.error .storage, w) => (.error .storage, w))

/-- Per-match body of `_find_existing_channel`: unarchive first when archived
(a failure there is caught and returns the state untouched), then seed. -/
def handle_found_channel (env : Env) (state : BotState) (ch : SlackChannel) (w : World) :
    Res BotState :=
  if ch.is_archived then
    match apiCall w (.unarchiveChannel ch.id) (env.unarchiveResp ch.id) with
    | (.ok _, w) => seed_from_channel env state ch.id w
    | (.error (.slack _), w) => (.ok state, w)
    | (.error .storage, w) => (.error .storage, w)
  else seed_from_channel env state ch.id w

/-- Pagination loop (`while True`) of `_find_existing_channel`, with explicit
page fuel.  An empty or missing `next_cursor` ends the loop. -/
def find_pages (env : Env) (state : BotState) (channel_name : String) :
    Option String → Nat → World → Res BotState
  | _, 0, w => (.ok state, w)
  | cursor, fuel + 1, w =>
      match list_channels_retry env cursor 3 0 w with
      | (.ok none, w) => (.ok state, w)
      | (.ok (some (channels, next)), w) =>
          match channels.find? (fun ch => ch.name == channel_name) with
          | some ch => handle_found_channel env state ch w
          | none =>
              match next with
              | none => (.ok state, w)
              | some c =>
                  if c == "" then (.ok state, w)
                  else find_pages env state channel_name (some c) fuel w
      | (.error e, w) => (.error e, w)

/-- `ChannelManager._find_existing_channel`: run the pagination loop inside
the outer `except SlackApiError` (which returns the state). -/
def find_existing_channel (env : Env) (state : BotState) (channel_name : String)
    (fuel : Nat) (w : World) : Res BotState :=
  match find_pages env state channel_name none fuel w with
  | (.ok s, w) => (.ok s, w)
  | (.error (.slack _), w) => (.ok state, w)
  | (.error .storage, w) => (.error .storage, w)

/-- `ChannelManager._create_or_get_channel`: create the batch channel; on a
`name_taken` conflict fall back to the paginated lookup; any other creation
error is logged and the state returned unchanged. -/
def create_or_get_channel (env : Env) (fuel : Nat) (state : BotState) (w : World) :
    Res BotState :=
  let channel_name := get_channel_name env state.current_channel_number
  match apiCall w (.createChannel channel_name) (env.createResp channel_name) with
  | (.ok channel_id, w) =>
      let state1 := { state with current_channel_id := some channel_id,
                                 current_count := 0 }
      mbind (stSaveState env state1 w) (fun _ w =>
        mbind (post_welcome_message env channel_id w) (fun _ w => (.ok state1, w)))
  | (.error (.slack e), w) =>
      if e.error == "name_taken" then
        find_existing_channel env state channel_name fuel w
      else (.ok state, w)
  | (.error .storage, w) => (.error .storage, w)

/-- `ChannelManager._rotate_to_next_channel`. -/
def rotate_to_next_channel (env : Env) (fuel : Nat) (state : BotState) (w : World) :
    Res BotState :=
  let state1 := { state with
      current_channel_number := state.current_channel_number + 1,
      current_channel_id := none,
      current_count := 0 }
  create_or_get_channel env fuel state1 w

/-- Lines 95-109 of `add_user_to_welcome_channel`: invite into the current
batch channel and dispatch on the truthy result. -/
def place_in_channel (env : Env) (state : BotState) (user_id : String) (w : World) :
    Res Bool :=
  mbind (invite_user env (state.current_channel_id.getD "") user_id w) (fun result w =>
    match result with
    | .pyGuest => (.ok true, w)
    | .pyTrue =>
        let state1 := { state with current_count := state.current_count + 1 }
        mbind (stSaveState env state1 w) (fun _ w =>
          mbind (stMarkProcessed env user_id w) (fun _ w => (.ok true, w)))
    | .pyFalse => (.ok false, w))

/-- `ChannelManager.add_user_to_welcome_channel`: the new-full-member
operation. -/
def add_user_to_welcome_channel (env : Env) (fuel : Nat) (user_id : String) (w : World) :
    Res Bool :=
  mbind (stIsProcessed env user_id w) (fun p w =>
    if p then (.ok true, w)
    else
      mbind (add_user_to_default_channels env user_id w) (fun _ w =>
        mbind (send_optin_prompts env user_id w) (fun _ w =>
          mbind (stGetState env w) (fun cs0 w =>
            mbind (if truthyId cs0.current_channel_id then (.ok cs0, w)
                   else create_or_get_channel env fuel cs0 w) (fun cs1 w =>
              if !truthyId cs1.current_channel_id then (.ok false, w)
              else
                mbind (if cs1.current_count ≥ env.BATCH_SIZE then
                         rotate_to_next_channel env fuel cs1 w
                       else (.ok cs1, w)) (fun cs2 w =>
                  if !truthyId cs2.current_channel_id then (.ok false, w)
                  else place_in_channel env cs2 user_id w))))))

/-- `ChannelManager.process_promoted_guest`: the guest-promotion operation. -/
def process_promoted_guest (env : Env) (fuel : Nat) (user_id : String) (w : World) :
    Res Bool :=
  mbind (stIsPendingGuest env user_id w) (fun p w =>
    if !p then (.ok false, w)
    else
      mbind (stRemovePendingGuest env user_id w) (fun _ w =>
        mbind (stGetState env w) (fun st w =>
          let st1 := { st with processed_users :=
              st.processed_users.filter (fun x => x ≠ user_id) }
          mbind (stSaveState env st1 w) (fun _ w =>
            add_user_to_welcome_channel env fuel user_id w))))

/-! Concrete environments and worlds used to instantiate the theorems. -/

/-- An all-succeeding platform with an available backend, no default or
opt-in channels, batch size 1000. -/
def baseEnv : Env := {
  BATCH_SIZE := 1000
  CHANNEL_STEM := "welcome"
  DEFAULT_CHANNELS := []
  OPTIN_CHANNELS := []
  OPTIN_PROMPT_CHANNEL := "CP"
  PIN_WELCOME_MESSAGE := false
  createResp := fun n => .ok ("id-" ++ n)
  listResp := fun _ _ => .error ⟨"internal_error"⟩
  joinResp := fun _ => .ok ()
  inviteResp := fun _ _ _ => .ok ()
  unarchiveResp := fun _ => .ok ()
  infoResp := fun _ => .ok (some 5)
  postMessageResp := fun _ => .ok (some "1.0")
  pinResp := fun _ => .ok ()
  ephemeralResp := fun _ _ => .ok ()
  storageOk := true }

/-- Fresh world: initial rotation state, empty trace. -/
def w0 : World := { store := {}, calls := [] }

/-- World in which user `"U"` is already processed. -/
def wProcessed : World := { store := { processed_users := ["U"] }, calls := [] }

/-- World whose current batch channel is `"C1"` with zero occupants. -/
def wC1 : World := { store := { current_channel_id := some "C1" }, calls := [] }

/-- Platform that answers every invite with `cant_invite_self`. -/
def envSkip : Env := { baseEnv with inviteResp := fun _ _ _ => .error ⟨"cant_invite_self"⟩ }

/-- Platform that rate-limits the first two invite attempts and accepts the
third. -/
def envRl : Env := { baseEnv with
  inviteResp := fun _ _ a => if a < 2 then .error ⟨"ratelimited"⟩ else .ok () }

/-- Platform whose storage backend is unreachable. -/
def envDown : Env := { baseEnv with storageOk := false }

/-- Platform that answers the rotation-channel invite with
`user_is_restricted`. -/
def envGuest : Env := { baseEnv with inviteResp := fun _ _ _ => .error ⟨"user_is_restricted"⟩ }

/-- Platform on which channel creation always fails with a non-conflict
error. -/
def envNoCreate : Env := { baseEnv with createResp := fun _ => .error ⟨"internal_error"⟩ }

/-- Platform reporting `name_taken` on creation, with the existing archived
channel `"X2"` named `"welcome"` on the second listing page. -/
def envTaken : Env := { baseEnv with
  createResp := fun _ => .error ⟨"name_taken"⟩
  listResp := fun cur _ =>
    match cur with
    | none => .ok ([⟨"X1", "other", false⟩], some "p2")
    | some c => if c = "p2" then .ok ([⟨"X2", "welcome", true⟩], none)
                else .error ⟨"bad_cursor"⟩ }

/-- World with a full batch (count 2 of 2) in channel `"C1"`. -/
def wFull : World := { store := { current_channel_id := some "C1", current_count := 2 }, calls := [] }

/-- Batch size 2 variant of the all-succeeding platform. -/
def envBatch2 : Env := { baseEnv with BATCH_SIZE := 2 }

/-- Batch size 2 platform reporting `name_taken` on creation whose channel
listing is empty, so the conflicting channel can never be located. -/
def envTakenEmpty : Env := { envBatch2 with
  createResp := fun _ => .error ⟨"name_taken"⟩
  listResp := fun _ _ => .ok ([], none) }

/-- Between two worlds: rotation fields and the processed set are unchanged
and the pending set grew by at most the single user `u`. -/
def StorePreserves (w w' : World) (u : String) : Prop :=
  w'.store.current_channel_number = w.store.current_channel_number ∧
  w'.store.current_channel_id = w.store.current_channel_id ∧
  w'.store.current_count = w.store.current_count ∧
  w'.store.processed_users = w.store.processed_users ∧
  (w'.store.pending_guests = w.store.pending_guests ∨
   w'.store.pending_guests = w.store.pending_guests.insert u)

/-- Every call of `w'`'s trace is an old call of `w` or satisfies
`allowed`. -/
def CallsExtend (w w' : World) (allowed : ApiCall → Prop) : Prop :=
  ∀ c, c ∈ w'.calls → c ∈ w.calls ∨ allowed c

/-- The `RotationState` invariant: channel ordinal at least 1, occupant
count non-negative. -/
def StateInv (s : BotState) : Prop :=
  1 ≤ s.current_channel_number ∧ 0 ≤ s.current_count

/-- The result is not an escaped Slack platform error. -/
def NotSlackError {α : Type} : Except Exn α → Prop
  | .error (.slack _) => False
  | _ => True

/-- The paginated listing, starting at `cursor`, reaches a page whose first
name match is `ch` after the chain `cs` of match-free pages, each page
fetched successfully on its first attempt. -/
def pagesLeadTo (env : Env) (channel_name : String) :
    List String → Option String → SlackChannel → Prop
  | [], cursor, ch => ∃ chans next, env.listResp cursor 0 = .ok (chans, next) ∧
      chans.find? (fun c => c.name == channel_name) = some ch
  | c1 :: rest, cursor, ch => ∃ chans, env.listResp cursor 0 = .ok (chans, some c1) ∧
      c1 ≠ "" ∧ chans.find? (fun c => c.name == channel_name) = none ∧
      pagesLeadTo env channel_name rest (some c1) ch

/-- The paginated listing, starting at `cursor`, runs out (final page has no
follow-up cursor) after the chain `cs` of pages none of which contains a
channel named `channel_name`; each page fetched successfully on its first
attempt. -/
def pagesExhaust (env : Env) (channel_name : String) : List String → Option String → Prop
  | [], cursor => ∃ chans, env.listResp cursor 0 = .ok (chans, none) ∧
      chans.find? (fun c => c.name == channel_name) = none
  | c1 :: rest, cursor => ∃ chans, env.listResp cursor 0 = .ok (chans, some c1) ∧
      c1 ≠ "" ∧ chans.find? (fun c => c.name == channel_name) = none ∧
      pagesExhaust env channel_name rest (some c1)

end Welcomer

/-! Theorems. -/

namespace Welcomer

theorem mbind_eq_ok {α β : Type} {x : Res α} {f : α → World → Res β} {a : α} {w' : World}
    (h : x = (.ok a, w')) : mbind x f = f a w' := by
  rw [h]; rfl

theorem store_preserves_refl (w : World) (u : String) : StorePreserves w w u :=
  ⟨rfl, rfl, rfl, rfl, .inl rfl⟩

theorem list_insert_idem (l : List String) (u : String) :
    (l.insert u).insert u = l.insert u := by
  by_cases hm : u ∈ l <;> simp [List.insert, hm]

theorem store_preserves_trans {w w1 w2 : World} {u : String}
    (h1 : StorePreserves w w1 u) (h2 : StorePreserves w1 w2 u) :
    StorePreserves w w2 u := by
  obtain ⟨a1, b1, c1, d1, e1⟩ := h1
  obtain ⟨a2, b2, c2, d2, e2⟩ := h2
  refine ⟨a2.trans a1, b2.trans b1, c2.trans c1, d2.trans d1, ?_⟩
  rcases e1 with e1 | e1 <;> rcases e2 with e2 | e2 <;>
    simp [e2, e1, list_insert_idem]

theorem calls_extend_refl (w : World) (P : ApiCall → Prop) : CallsExtend w w P :=
  fun _ h => .inl h

theorem calls_extend_trans {w w1 w2 : World} {P : ApiCall → Prop}
    (h1 : CallsExtend w w1 P) (h2 : CallsExtend w1 w2 P) : CallsExtend w w2 P := by
  intro c hc
  rcases h2 c hc with h | h
  · exact h1 c h
  · exact .inr h

theorem calls_extend_mono {w w' : World} {P Q : ApiCall → Prop}
    (hpq : ∀ c, P c → Q c) (h : CallsExtend w w' P) : CallsExtend w w' Q := by
  intro c hc
  rcases h c hc with h' | h'
  · exact .inl h'
  · exact .inr (hpq c h')

theorem calls_extend_snoc {w : World} {P : ApiCall → Prop} {c0 : ApiCall} (h : P c0) :
    CallsExtend w { w with calls := w.calls ++ [c0] } P := by
  intro c hc
  simp only [List.mem_append, List.mem_singleton] at hc
  rcases hc with hc | hc
  · exact .inl hc
  · exact .inr (hc ▸ h)

/-- C9: for every integer `n ≥ 1` and every channel stem, the name the
rotator derives for rotation channel `n` is recognized by
`is_welcome_channel_name`. -/
theorem c9_naming_round_trip (env : Env) (n : Int) (h : 1 ≤ n) :
    is_welcome_channel_name env (get_channel_name env n) = true := by
  unfold get_channel_name is_welcome_channel_name
  by_cases h1 : (n == 1) = true
  · simp [h1]
  · simp only [h1, Bool.false_eq_true, if_false]
    split
    · rfl
    · simp [strStartsWith]

/-- C9 witness: the round-trip evaluated at `n = 3` over the concrete base
configuration. -/
theorem c9_naming_round_trip_witness :
    (1 : Int) ≤ 3 ∧ is_welcome_channel_name baseEnv (get_channel_name baseEnv 3) = true :=
  ⟨by decide, c9_naming_round_trip baseEnv 3 (by decide)⟩

/-- C2: when the user is already processed, the new-full-member operation
returns `True` and leaves the world (state store and platform call trace)
entirely unchanged — the second of two consecutive calls is a no-op. -/
theorem c2_idempotent_noop (env : Env) (fuel : Nat) (user_id : String) (w : World)
    (hst : env.storageOk = true) (hp : user_id ∈ w.store.processed_users) :
    add_user_to_welcome_channel env fuel user_id w = (.ok true, w) := by
  simp [add_user_to_welcome_channel, stIsProcessed, hst, mbind, hp]

/-- C2 witness: the no-op evaluated for the already-processed user `"U"`. -/
theorem c2_idempotent_noop_witness :
    baseEnv.storageOk = true ∧ "U" ∈ wProcessed.store.processed_users ∧
    add_user_to_welcome_channel baseEnv 1 "U" wProcessed = (.ok true, wProcessed) :=
  ⟨rfl, by simp [wProcessed],
    c2_idempotent_noop baseEnv 1 "U" wProcessed rfl (by simp [wProcessed])⟩

/-- C4 counterexample: with the current channel `"C1"` at count 0 and a
platform answering the invite with `cant_invite_self` (a `Skipped` outcome),
the new-full-member operation nevertheless increments `current_count` to 1
and marks the user processed, because `_invite_user` collapses `Skipped`
into the same truthy value as `Invited`. -/
theorem c4_counterexample :
    (add_user_to_welcome_channel envSkip 1 "U" wC1).1 = .ok true ∧
    (add_user_to_welcome_channel envSkip 1 "U" wC1).2.store.current_count = 1 ∧
    "U" ∈ (add_user_to_welcome_channel envSkip 1 "U" wC1).2.store.processed_users := by
  decide

/-- C7 counterexample: for an invite that is rate-limited twice and then
succeeds, `_invite_user` reports success but makes 4 platform calls (one
`conversations_join` plus three `conversations_invite`), not at most 3. -/
theorem c7_counterexample :
    (invite_user envRl "C1" "U" w0).1 = .ok .pyTrue ∧
    (invite_user envRl "C1" "U" w0).2.calls.length = 4 ∧
    ¬ (invite_user envRl "C1" "U" w0).2.calls.length ≤ 3 := by
  decide

/-- C8 counterexample: when the storage backend is unreachable, both core
operations propagate the storage exception instead of returning a boolean. -/
theorem c8_counterexample :
    (add_user_to_welcome_channel envDown 1 "U" w0).1 = .error .storage ∧
    (process_promoted_guest envDown 1 "U" w0).1 = .error .storage := by
  decide



theorem store_preserves_same {w w' : World} (u : String) (h : w'.store = w.store) :
    StorePreserves w w' u :=
  ⟨by rw [h], by rw [h], by rw [h], by rw [h], .inl (by rw [h])⟩

theorem ensure_bot_shape (env : Env) (c : String) (w : World) :
    ∃ b, ensure_bot_in_channel env c w =
      (.ok b, { w with calls := w.calls ++ [ApiCall.joinChannel c] }) := by
  cases h : env.joinResp c with
  | ok a => exact ⟨true, by simp [ensure_bot_in_channel, apiCall, h]⟩
  | error e =>
      by_cases he : (e.error == "already_in_channel") = true
      · exact ⟨true, by simp [ensure_bot_in_channel, apiCall, h, he]⟩
      · exact ⟨false, by simp [ensure_bot_in_channel, apiCall, h, he]⟩

theorem ensure_bot_of_ok {env : Env} {c : String} (w : World) (h : env.joinResp c = .ok ()) :
    ensure_bot_in_channel env c w =
      (.ok true, { w with calls := w.calls ++ [ApiCall.joinChannel c] }) := by
  simp [ensure_bot_in_channel, apiCall, h]

theorem invite_loop_shape (env : Env) (c u : String) (hst : env.storageOk = true) :
    ∀ rem attempt w, ∃ r w', invite_loop env c u rem attempt w = (.ok r, w') ∧
      StorePreserves w w' u ∧ CallsExtend w w' (fun x => x = ApiCall.inviteUser c u) := by
  intro rem
  induction rem with
  | zero =>
      intro attempt w
      exact ⟨.pyFalse, w, rfl, store_preserves_refl w u, calls_extend_refl w _⟩
  | succ rem ih =>
      intro attempt w
      cases h : env.inviteResp c u attempt with
      | ok a =>
          refine ⟨.pyTrue, { w with calls := w.calls ++ [ApiCall.inviteUser c u] },
            by simp [invite_loop, apiCall, h], store_preserves_same u rfl, calls_extend_snoc rfl⟩
      | error e =>
          by_cases h1 : (e.error == "already_in_channel") = true
          · refine ⟨.pyTrue, { w with calls := w.calls ++ [ApiCall.inviteUser c u] },
              by simp [invite_loop, apiCall, h, h1], store_preserves_same u rfl, calls_extend_snoc rfl⟩
          by_cases h2 : (e.error == "ratelimited") = true
          · obtain ⟨r, w', heq, hsp, hce⟩ :=
              ih (attempt + 1) { w with calls := w.calls ++ [ApiCall.inviteUser c u] }
            refine ⟨r, w', ?_, ?_, ?_⟩
            · simp [invite_loop, apiCall, h, h1, h2, heq]
            · exact store_preserves_trans (store_preserves_same u rfl) hsp
            · exact calls_extend_trans (calls_extend_snoc rfl) hce
          by_cases h3 : (e.error == "user_is_restricted" || e.error == "user_is_ultra_restricted") = true
          · refine ⟨.pyGuest,
              { store := { w.store with pending_guests := w.store.pending_guests.insert u },
                calls := w.calls ++ [ApiCall.inviteUser c u] },
              by simp [invite_loop, apiCall, h, h1, h2, h3, mbind, stAddPendingGuest, hst],
              ⟨rfl, rfl, rfl, rfl, .inr rfl⟩, calls_extend_snoc rfl⟩
          by_cases h4 : (e.error == "cant_invite_self" || e.error == "user_not_found" ||
              e.error == "method_not_supported_for_channel_type") = true
          · refine ⟨.pyTrue, { w with calls := w.calls ++ [ApiCall.inviteUser c u] },
              by simp [invite_loop, apiCall, h, h1, h2, h3, h4], store_preserves_same u rfl,
              calls_extend_snoc rfl⟩
          · refine ⟨.pyFalse, { w with calls := w.calls ++ [ApiCall.inviteUser c u] },
              by simp [invite_loop, apiCall, h, h1, h2, h3, h4], store_preserves_same u rfl,
              calls_extend_snoc rfl⟩



theorem invite_user_shape (env : Env) (c u : String) (hst : env.storageOk = true) (w : World) :
    ∃ r w', invite_user env c u w = (.ok r, w') ∧ StorePreserves w w' u ∧
      CallsExtend w w' (fun x => x = ApiCall.joinChannel c ∨ x = ApiCall.inviteUser c u) := by
  obtain ⟨b, hb⟩ := ensure_bot_shape env c w
  unfold invite_user
  rw [mbind_eq_ok hb]
  cases b with
  | false =>
      refine ⟨.pyFalse, { w with calls := w.calls ++ [ApiCall.joinChannel c] },
        by simp, store_preserves_same u rfl, calls_extend_snoc (Or.inl rfl)⟩
  | true =>
      obtain ⟨r, w', heq, hsp, hce⟩ :=
        invite_loop_shape env c u hst 3 0 { w with calls := w.calls ++ [ApiCall.joinChannel c] }
      refine ⟨r, w', by simp [heq], ?_, ?_⟩
      · exact store_preserves_trans (store_preserves_same u rfl) hsp
      · exact calls_extend_trans (calls_extend_snoc (.inl rfl))
          (calls_extend_mono (fun x hx => .inr hx) hce)

theorem default_go_shape (env : Env) (u : String) (hst : env.storageOk = true) :
    ∀ cs w, ∃ w', default_channels_go env u cs w = (.ok (), w') ∧ StorePreserves w w' u ∧
      CallsExtend w w' (fun x => ∃ d, d ∈ cs ∧ (x = ApiCall.joinChannel d ∨ x = ApiCall.inviteUser d u)) := by
  intro cs
  induction cs with
  | nil =>
      intro w
      exact ⟨w, rfl, store_preserves_refl w u, calls_extend_refl w _⟩
  | cons c cs ih =>
      intro w
      obtain ⟨r, w1, heq, hsp, hce⟩ := invite_user_shape env c u hst w
      obtain ⟨w', heq', hsp', hce'⟩ := ih w1
      refine ⟨w', ?_, store_preserves_trans hsp hsp', ?_⟩
      · simp [default_channels_go, mbind_eq_ok heq, heq']
      · refine calls_extend_trans
          (calls_extend_mono ?_ hce) (calls_extend_mono ?_ hce')
        · exact fun x hx => ⟨c, by simp, hx⟩
        · rintro x ⟨d, hd, hx⟩
          exact ⟨d, by simp [hd], hx⟩

theorem defaults_shape (env : Env) (u : String) (hst : env.storageOk = true) (w : World) :
    ∃ w', add_user_to_default_channels env u w = (.ok (), w') ∧ StorePreserves w w' u ∧
      CallsExtend w w' (fun x => ∃ d, d ∈ env.DEFAULT_CHANNELS ∧
        (x = ApiCall.joinChannel d ∨ x = ApiCall.inviteUser d u)) :=
  default_go_shape env u hst env.DEFAULT_CHANNELS w

theorem optin_go_shape (env : Env) (u : String) :
    ∀ cs w, ∃ w', optin_go env u cs w = (.ok (), w') ∧ w'.store = w.store ∧
      CallsExtend w w' (fun x => x = ApiCall.postEphemeral env.OPTIN_PROMPT_CHANNEL u) := by
  intro cs
  induction cs with
  | nil =>
      intro w
      exact ⟨w, rfl, rfl, calls_extend_refl w _⟩
  | cons c cs ih =>
      intro w
      cases h : env.ephemeralResp env.OPTIN_PROMPT_CHANNEL u with
      | ok a =>
          obtain ⟨w', heq', hs', hce'⟩ :=
            ih { w with calls := w.calls ++ [ApiCall.postEphemeral env.OPTIN_PROMPT_CHANNEL u] }
          exact ⟨w', by simp [optin_go, apiCall, h, heq'], hs',
            calls_extend_trans (calls_extend_snoc rfl) hce'⟩
      | error e =>
          obtain ⟨w', heq', hs', hce'⟩ :=
            ih { w with calls := w.calls ++ [ApiCall.postEphemeral env.OPTIN_PROMPT_CHANNEL u] }
          exact ⟨w', by simp [optin_go, apiCall, h, heq'], hs',
            calls_extend_trans (calls_extend_snoc rfl) hce'⟩

theorem optin_shape (env : Env) (u : String) (w : World) :
    ∃ w', send_optin_prompts env u w = (.ok (), w') ∧ w'.store = w.store ∧
      CallsExtend w w' (fun x => x = ApiCall.postEphemeral env.OPTIN_PROMPT_CHANNEL u) :=
  optin_go_shape env u env.OPTIN_CHANNELS w

theorem post_welcome_shape (env : Env) (cid : String) (w : World) :
    ∃ extra, post_welcome_message env cid w = (.ok (), { w with calls := w.calls ++ extra }) ∧
      ∀ x ∈ extra, x = ApiCall.postMessage cid ∨ x = ApiCall.pinMessage cid := by
  cases h : env.postMessageResp cid with
  | ok ts =>
      simp only [post_welcome_message, apiCall, h]
      by_cases hc : (env.PIN_WELCOME_MESSAGE && decide (ts.getD "" ≠ "")) = true
      · rw [if_pos hc]
        cases hp : env.pinResp cid with
        | ok a =>
            exact ⟨[ApiCall.postMessage cid, ApiCall.pinMessage cid], by simp [hp], by simp⟩
        | error e =>
            exact ⟨[ApiCall.postMessage cid, ApiCall.pinMessage cid], by simp [hp], by simp⟩
      · rw [if_neg hc]
        exact ⟨[ApiCall.postMessage cid], by simp, by simp⟩
  | error e =>
      exact ⟨[ApiCall.postMessage cid],
        by simp [post_welcome_message, apiCall, h], by simp⟩



theorem invite_user_ok {env : Env} {c u : String} (w : World)
    (hj : env.joinResp c = .ok ()) (hi : env.inviteResp c u 0 = .ok ()) :
    invite_user env c u w =
      (.ok .pyTrue, { w with calls := w.calls ++ [ApiCall.joinChannel c, ApiCall.inviteUser c u] }) := by
  rw [invite_user, mbind_eq_ok (ensure_bot_of_ok w hj)]
  simp [invite_loop, apiCall, hi]

theorem invite_user_guest {env : Env} {c u : String} {e : SlackError} (w : World)
    (hst : env.storageOk = true)
    (hj : env.joinResp c = .ok ()) (hi : env.inviteResp c u 0 = .error e)
    (he : e.error = "user_is_restricted" ∨ e.error = "user_is_ultra_restricted") :
    invite_user env c u w =
      (.ok .pyGuest,
        { store := { w.store with pending_guests := w.store.pending_guests.insert u },
          calls := w.calls ++ [ApiCall.joinChannel c, ApiCall.inviteUser c u] }) := by
  rw [invite_user, mbind_eq_ok (ensure_bot_of_ok w hj)]
  rcases he with he | he <;>
    simp [invite_loop, apiCall, hi, he, mbind, stAddPendingGuest, hst]

theorem invite_user_skip {env : Env} {c u : String} {e : SlackError} (w : World)
    (hj : env.joinResp c = .ok ()) (hi : env.inviteResp c u 0 = .error e)
    (he : e.error = "already_in_channel" ∨ e.error = "cant_invite_self" ∨
      e.error = "user_not_found" ∨ e.error = "method_not_supported_for_channel_type") :
    invite_user env c u w =
      (.ok .pyTrue, { w with calls := w.calls ++ [ApiCall.joinChannel c, ApiCall.inviteUser c u] }) := by
  rw [invite_user, mbind_eq_ok (ensure_bot_of_ok w hj)]
  rcases he with he | he | he | he <;>
    simp [invite_loop, apiCall, hi, he]

theorem place_ok_eq {env : Env} {s : BotState} {cid u : String} (w : World)
    (hst : env.storageOk = true) (hcid : s.current_channel_id = some cid)
    (hj : env.joinResp cid = .ok ()) (hi : env.inviteResp cid u 0 = .ok ()) :
    place_in_channel env s u w =
      (.ok true,
        { store := { s with current_count := s.current_count + 1,
                            processed_users := s.processed_users.insert u },
          calls := w.calls ++ [ApiCall.joinChannel cid, ApiCall.inviteUser cid u] }) := by
  rw [place_in_channel, hcid]
  simp only [Option.getD_some]
  rw [mbind_eq_ok (invite_user_ok w hj hi)]
  simp [mbind, stSaveState, hst, stMarkProcessed]

theorem place_guest_eq {env : Env} {s : BotState} {cid u : String} {e : SlackError} (w : World)
    (hst : env.storageOk = true) (hcid : s.current_channel_id = some cid)
    (hj : env.joinResp cid = .ok ()) (hi : env.inviteResp cid u 0 = .error e)
    (he : e.error = "user_is_restricted" ∨ e.error = "user_is_ultra_restricted") :
    place_in_channel env s u w =
      (.ok true,
        { store := { w.store with pending_guests := w.store.pending_guests.insert u },
          calls := w.calls ++ [ApiCall.joinChannel cid, ApiCall.inviteUser cid u] }) := by
  rw [place_in_channel, hcid]
  simp only [Option.getD_some]
  rw [mbind_eq_ok (invite_user_guest w hst hj hi he)]

theorem place_skip_eq {env : Env} {s : BotState} {cid u : String} {e : SlackError} (w : World)
    (hst : env.storageOk = true) (hcid : s.current_channel_id = some cid)
    (hj : env.joinResp cid = .ok ()) (hi : env.inviteResp cid u 0 = .error e)
    (he : e.error = "already_in_channel" ∨ e.error = "cant_invite_self" ∨
      e.error = "user_not_found" ∨ e.error = "method_not_supported_for_channel_type") :
    place_in_channel env s u w =
      (.ok true,
        { store := { s with current_count := s.current_count + 1,
                            processed_users := s.processed_users.insert u },
          calls := w.calls ++ [ApiCall.joinChannel cid, ApiCall.inviteUser cid u] }) := by
  rw [place_in_channel, hcid]
  simp only [Option.getD_some]
  rw [mbind_eq_ok (invite_user_skip w hj hi he)]
  simp [mbind, stSaveState, hst, stMarkProcessed]

theorem create_ok_eq {env : Env} {s : BotState} {ncid : String} (fuel : Nat) (w : World)
    (hst : env.storageOk = true)
    (hc : env.createResp (get_channel_name env s.current_channel_number) = .ok ncid) :
    ∃ extra, create_or_get_channel env fuel s w =
      (.ok { s with current_channel_id := some ncid, current_count := 0 },
        { store := { s with current_channel_id := some ncid, current_count := 0 },
          calls := (w.calls ++
            [ApiCall.createChannel (get_channel_name env s.current_channel_number)]) ++ extra }) ∧
      ∀ x ∈ extra, x = ApiCall.postMessage ncid ∨ x = ApiCall.pinMessage ncid := by
  obtain ⟨extra, hpw, hex⟩ := post_welcome_shape env ncid
    { store := { s with current_channel_id := some ncid, current_count := 0 },
      calls := w.calls ++ [ApiCall.createChannel (get_channel_name env s.current_channel_number)] }
  refine ⟨extra, ?_, hex⟩
  simp only [create_or_get_channel, apiCall, hc]
  simp [mbind, stSaveState, hst, hpw]

theorem rotate_ok_eq {env : Env} {s : BotState} {ncid : String} (fuel : Nat) (w : World)
    (hst : env.storageOk = true)
    (hc : env.createResp (get_channel_name env (s.current_channel_number + 1)) = .ok ncid) :
    ∃ extra, rotate_to_next_channel env fuel s w =
      (.ok { s with current_channel_number := s.current_channel_number + 1,
                    current_channel_id := some ncid, current_count := 0 },
        { store := { s with current_channel_number := s.current_channel_number + 1,
                            current_channel_id := some ncid, current_count := 0 },
          calls := (w.calls ++
            [ApiCall.createChannel (get_channel_name env (s.current_channel_number + 1))]) ++ extra }) ∧
      ∀ x ∈ extra, x = ApiCall.postMessage ncid ∨ x = ApiCall.pinMessage ncid := by
  rw [rotate_to_next_channel]
  exact create_ok_eq fuel w hst hc



theorem mbind_pair {α β : Type} (a : α) (w : World) (f : α → World → Res β) :
    mbind (.ok a, w) f = f a w := rfl

/-- C1: with the current batch full (`current_count >= BATCH_SIZE`) and the
user unprocessed, the new-full-member operation rotates before inviting:
the final state has `current_channel_number` incremented by exactly 1, the
rotated channel's id and count 1; the rotated channel was re-created
(`createChannel` call present) and the invite targeted the rotated channel,
never the original one. -/
theorem c1_batch_rotation (env : Env) (fuel : Nat) (uid cid ncid : String) (w : World)
    (hst : env.storageOk = true)
    (hid : w.store.current_channel_id = some cid) (hcid : cid ≠ "")
    (hcount : w.store.current_count ≥ env.BATCH_SIZE)
    (hN : 1 ≤ env.BATCH_SIZE)
    (hu : uid ∉ w.store.processed_users)
    (hcreate : env.createResp (get_channel_name env (w.store.current_channel_number + 1)) = .ok ncid)
    (hncid : ncid ≠ "")
    (hj : env.joinResp ncid = .ok ())
    (hi : env.inviteResp ncid uid 0 = .ok ())
    (hdc : cid ∉ env.DEFAULT_CHANNELS)
    (hne : ncid ≠ cid)
    (hw : w.calls = []) :
    ∃ wf, add_user_to_welcome_channel env fuel uid w = (.ok true, wf) ∧
      wf.store.current_channel_number = w.store.current_channel_number + 1 ∧
      wf.store.current_channel_id = some ncid ∧
      wf.store.current_count = 1 ∧
      uid ∈ wf.store.processed_users ∧
      ApiCall.createChannel (get_channel_name env (w.store.current_channel_number + 1)) ∈ wf.calls ∧
      ApiCall.inviteUser ncid uid ∈ wf.calls ∧
      ApiCall.inviteUser cid uid ∉ wf.calls := by
  obtain ⟨w1, heq1, hsp1, hce1⟩ := defaults_shape env uid hst w
  obtain ⟨w2, heq2, hs2, hce2⟩ := optin_shape env uid w1
  obtain ⟨hn1, hi1, hc1, hp1, hg1⟩ := hsp1
  -- w2.store fields in terms of w.store
  have hnum : w2.store.current_channel_number = w.store.current_channel_number := by
    rw [hs2, hn1]
  have hid2 : w2.store.current_channel_id = some cid := by rw [hs2, hi1, hid]
  have hcnt2 : w2.store.current_count = w.store.current_count := by rw [hs2, hc1]
  have hpr2 : w2.store.processed_users = w.store.processed_users := by rw [hs2, hp1]
  have h0 : stIsProcessed env uid w = (.ok false, w) := by
    simp [stIsProcessed, hst, hu]
  rw [add_user_to_welcome_channel, mbind_eq_ok h0, if_neg (by simp),
    mbind_eq_ok heq1, mbind_eq_ok heq2]
  have hgs : stGetState env w2 = (.ok w2.store, w2) := by simp [stGetState, hst]
  rw [mbind_eq_ok hgs, hid2]
  have htr : truthyId (some cid) = true := by simp [truthyId, hcid]
  rw [if_pos htr, mbind_pair]
  rw [hid2, htr]
  rw [if_neg (by simp)]
  have hc2 : w2.store.current_count ≥ env.BATCH_SIZE := by rw [hcnt2]; exact hcount
  rw [if_pos hc2]
  have hcreate2 : env.createResp (get_channel_name env (w2.store.current_channel_number + 1)) = .ok ncid := by
    rw [hnum]; exact hcreate
  obtain ⟨extra, heq3, hex3⟩ := rotate_ok_eq fuel w2 hst hcreate2
  rw [mbind_eq_ok heq3]
  have htr2 : truthyId (some ncid) = true := by simp [truthyId, hncid]
  simp only [htr2, Bool.not_true]
  rw [if_neg (by simp)]
  rw [place_ok_eq _ hst rfl hj hi]
  refine ⟨_, rfl, ?_, rfl, by simp, ?_, ?_, ?_, ?_⟩
  · simp [hnum]
  · simp [List.mem_insert_self]
  · simp [hnum]
  · simp
  · intro hmem
    simp only [List.mem_append, List.mem_cons, List.mem_singleton, List.not_mem_nil,
      or_false] at hmem
    rcases hmem with ((hmem | hmem) | hmem) | hmem | hmem
    · rcases hce2 _ hmem with hmem1 | hmem1
      · rcases hce1 _ hmem1 with hmem0 | hmem0
        · rw [hw] at hmem0; exact absurd hmem0 (List.not_mem_nil _)
        · obtain ⟨d, hd, hx⟩ := hmem0
          rcases hx with hx | hx
          · exact ApiCall.noConfusion hx
          · obtain ⟨hdc', -⟩ := ApiCall.inviteUser.inj hx
            exact hdc (hdc' ▸ hd)
      · exact ApiCall.noConfusion hmem1
    · exact ApiCall.noConfusion hmem
    · rcases hex3 _ hmem with hx | hx
      · exact ApiCall.noConfusion hx
      · exact ApiCall.noConfusion hx
    · exact ApiCall.noConfusion hmem
    · obtain ⟨hx, -⟩ := ApiCall.inviteUser.inj hmem
      exact hne hx.symm



/-- C1 witness: batch size 2, full channel `"C1"`, rotation to
`"id-welcome-1"` for user `"U"`. -/
theorem c1_batch_rotation_witness :
    ∃ wf, add_user_to_welcome_channel envBatch2 5 "U" wFull = (.ok true, wf) ∧
      wf.store.current_channel_number = wFull.store.current_channel_number + 1 ∧
      wf.store.current_channel_id = some "id-welcome-1" ∧
      wf.store.current_count = 1 ∧
      "U" ∈ wf.store.processed_users ∧
      ApiCall.createChannel (get_channel_name envBatch2 (wFull.store.current_channel_number + 1)) ∈ wf.calls ∧
      ApiCall.inviteUser "id-welcome-1" "U" ∈ wf.calls ∧
      ApiCall.inviteUser "C1" "U" ∉ wf.calls :=
  c1_batch_rotation envBatch2 5 "U" "C1" "id-welcome-1" wFull rfl rfl (by decide)
    (by decide) (by decide) (by simp [wFull]) (by decide) (by decide) rfl rfl
    (by simp [envBatch2, baseEnv]) (by decide) rfl



theorem deferral_spec (env : Env) (fuel : Nat) (uid cid : String) (e : SlackError) (w : World)
    (hst : env.storageOk = true)
    (hid : w.store.current_channel_id = some cid) (hcid : cid ≠ "")
    (hcount : w.store.current_count < env.BATCH_SIZE)
    (hu : uid ∉ w.store.processed_users)
    (hj : env.joinResp cid = .ok ())
    (hi : env.inviteResp cid uid 0 = .error e)
    (he : e.error = "user_is_restricted" ∨ e.error = "user_is_ultra_restricted") :
    ∃ wf, add_user_to_welcome_channel env fuel uid w = (.ok true, wf) ∧
      wf.store.current_channel_number = w.store.current_channel_number ∧
      wf.store.current_channel_id = w.store.current_channel_id ∧
      wf.store.current_count = w.store.current_count ∧
      wf.store.processed_users = w.store.processed_users ∧
      uid ∈ wf.store.pending_guests := by
  obtain ⟨w1, heq1, hsp1, hce1⟩ := defaults_shape env uid hst w
  obtain ⟨w2, heq2, hs2, hce2⟩ := optin_shape env uid w1
  obtain ⟨hn1, hi1, hc1, hp1, hg1⟩ := hsp1
  have hnum : w2.store.current_channel_number = w.store.current_channel_number := by
    rw [hs2, hn1]
  have hid2 : w2.store.current_channel_id = some cid := by rw [hs2, hi1, hid]
  have hcnt2 : w2.store.current_count = w.store.current_count := by rw [hs2, hc1]
  have hpr2 : w2.store.processed_users = w.store.processed_users := by rw [hs2, hp1]
  have h0 : stIsProcessed env uid w = (.ok false, w) := by
    simp [stIsProcessed, hst, hu]
  rw [add_user_to_welcome_channel, mbind_eq_ok h0, if_neg (by simp),
    mbind_eq_ok heq1, mbind_eq_ok heq2]
  have hgs : stGetState env w2 = (.ok w2.store, w2) := by simp [stGetState, hst]
  rw [mbind_eq_ok hgs, hid2]
  have htr : truthyId (some cid) = true := by simp [truthyId, hcid]
  rw [if_pos htr, mbind_pair]
  rw [hid2, htr]
  rw [if_neg (by simp)]
  have hc2 : ¬ w2.store.current_count ≥ env.BATCH_SIZE := by
    rw [hcnt2]; exact not_le.mpr hcount
  rw [if_neg hc2, mbind_pair, hid2, htr]
  rw [if_neg (by simp)]
  rw [place_guest_eq _ hst hid2 hj hi he]
  refine ⟨_, rfl, hnum, by simp [hid2, hid], by simp [hcnt2], by simp [hpr2], ?_⟩
  simp [List.mem_insert_self]

theorem add_user_ok_spec (env : Env) (fuel : Nat) (uid cid : String) (w : World)
    (hst : env.storageOk = true)
    (hid : w.store.current_channel_id = some cid) (hcid : cid ≠ "")
    (hcount : w.store.current_count < env.BATCH_SIZE)
    (hu : uid ∉ w.store.processed_users)
    (hj : env.joinResp cid = .ok ())
    (hi : env.inviteResp cid uid 0 = .ok ())
    (hd : env.DEFAULT_CHANNELS = []) :
    ∃ wf, add_user_to_welcome_channel env fuel uid w = (.ok true, wf) ∧
      wf.store.current_channel_number = w.store.current_channel_number ∧
      wf.store.current_channel_id = w.store.current_channel_id ∧
      wf.store.current_count = w.store.current_count + 1 ∧
      uid ∈ wf.store.processed_users ∧
      wf.store.pending_guests = w.store.pending_guests := by
  have heq1 : add_user_to_default_channels env uid w = (.ok (), w) := by
    rw [add_user_to_default_channels, hd]; rfl
  obtain ⟨w2, heq2, hs2, hce2⟩ := optin_shape env uid w
  have hnum : w2.store.current_channel_number = w.store.current_channel_number := by rw [hs2]
  have hid2 : w2.store.current_channel_id = some cid := by rw [hs2, hid]
  have hcnt2 : w2.store.current_count = w.store.current_count := by rw [hs2]
  have hpr2 : w2.store.processed_users = w.store.processed_users := by rw [hs2]
  have hpg2 : w2.store.pending_guests = w.store.pending_guests := by rw [hs2]
  have h0 : stIsProcessed env uid w = (.ok false, w) := by
    simp [stIsProcessed, hst, hu]
  rw [add_user_to_welcome_channel, mbind_eq_ok h0, if_neg (by simp),
    mbind_eq_ok heq1, mbind_eq_ok heq2]
  have hgs : stGetState env w2 = (.ok w2.store, w2) := by simp [stGetState, hst]
  rw [mbind_eq_ok hgs, hid2]
  have htr : truthyId (some cid) = true := by simp [truthyId, hcid]
  rw [if_pos htr, mbind_pair]
  rw [hid2, htr]
  rw [if_neg (by simp)]
  have hc2 : ¬ w2.store.current_count ≥ env.BATCH_SIZE := by
    rw [hcnt2]; exact not_le.mpr hcount
  rw [if_neg hc2, mbind_pair, hid2, htr]
  rw [if_neg (by simp)]
  rw [place_ok_eq _ hst hid2 hj hi]
  refine ⟨_, rfl, hnum, by simp [hid2, hid], by simp [hcnt2], ?_, by simp [hpg2]⟩
  simp [List.mem_insert_self]

theorem promotion_spec (env : Env) (fuel : Nat) (uid cid : String) (w : World)
    (hst : env.storageOk = true)
    (hpend : uid ∈ w.store.pending_guests)
    (hid : w.store.current_channel_id = some cid) (hcid : cid ≠ "")
    (hcount : w.store.current_count < env.BATCH_SIZE)
    (hj : env.joinResp cid = .ok ())
    (hi : env.inviteResp cid uid 0 = .ok ())
    (hd : env.DEFAULT_CHANNELS = []) :
    ∃ wg, process_promoted_guest env fuel uid w = (.ok true, wg) ∧
      uid ∉ wg.store.pending_guests ∧ uid ∈ wg.store.processed_users := by
  obtain ⟨wg, hg, hgn, hgi, hgc, hgp, hgpend⟩ :=
    add_user_ok_spec env fuel uid cid
      { store := { current_channel_number := w.store.current_channel_number,
                   current_channel_id := w.store.current_channel_id,
                   current_count := w.store.current_count,
                   processed_users := w.store.processed_users.filter (fun x => x ≠ uid),
                   pending_guests := w.store.pending_guests.filter (fun x => x ≠ uid) },
        calls := w.calls }
      hst hid hcid hcount (by simp [List.mem_filter]) hj hi hd
  refine ⟨wg, ?_, ?_, hgp⟩
  · have hrun : process_promoted_guest env fuel uid w =
        add_user_to_welcome_channel env fuel uid
          { store := { current_channel_number := w.store.current_channel_number,
                       current_channel_id := w.store.current_channel_id,
                       current_count := w.store.current_count,
                       processed_users := w.store.processed_users.filter (fun x => x ≠ uid),
                       pending_guests := w.store.pending_guests.filter (fun x => x ≠ uid) },
            calls := w.calls } := by
      simp [process_promoted_guest, stIsPendingGuest, stRemovePendingGuest, stGetState,
        stSaveState, hst, hpend, mbind]
    rw [hrun]
    exact hg
  · rw [hgpend]
    simp [List.mem_filter]

/-- C3: a user whose rotation-channel invite yields the restricted-account
outcome ends in the pending-guest set, not in the processed set, with the
operation succeeding and `current_count` unchanged; afterwards the promotion
operation removes them from the pending set, clears their processed status
and re-runs placement, so a successful invite marks them processed. -/
theorem c3_guest_deferral_round_trip (env1 env2 : Env) (fuel1 fuel2 : Nat)
    (uid cid : String) (e : SlackError) (w : World)
    (hst1 : env1.storageOk = true)
    (hid : w.store.current_channel_id = some cid) (hcid : cid ≠ "")
    (hcount1 : w.store.current_count < env1.BATCH_SIZE)
    (hu : uid ∉ w.store.processed_users)
    (hj1 : env1.joinResp cid = .ok ())
    (hi1 : env1.inviteResp cid uid 0 = .error e)
    (he : e.error = "user_is_restricted" ∨ e.error = "user_is_ultra_restricted")
    (hst2 : env2.storageOk = true)
    (hcount2 : w.store.current_count < env2.BATCH_SIZE)
    (hj2 : env2.joinResp cid = .ok ())
    (hi2 : env2.inviteResp cid uid 0 = .ok ())
    (hd2 : env2.DEFAULT_CHANNELS = []) :
    ∃ wf, add_user_to_welcome_channel env1 fuel1 uid w = (.ok true, wf) ∧
      uid ∈ wf.store.pending_guests ∧
      uid ∉ wf.store.processed_users ∧
      wf.store.current_count = w.store.current_count ∧
      ∃ wg, process_promoted_guest env2 fuel2 uid wf = (.ok true, wg) ∧
        uid ∉ wg.store.pending_guests ∧ uid ∈ wg.store.processed_users := by
  obtain ⟨wf, hf, hfn, hfi, hfc, hfp, hfpend⟩ :=
    deferral_spec env1 fuel1 uid cid e w hst1 hid hcid hcount1 hu hj1 hi1 he
  obtain ⟨wg, hg, hgpend, hgproc⟩ :=
    promotion_spec env2 fuel2 uid cid wf hst2 hfpend (hfi.trans hid) hcid
      (by rw [hfc]; exact hcount2) hj2 hi2 hd2
  exact ⟨wf, hf, hfpend, by rw [hfp]; exact hu, hfc, wg, hg, hgpend, hgproc⟩

/-- C3 witness: restricted user `"U"` deferred from channel `"C1"`, then
promoted and placed. -/
theorem c3_guest_deferral_round_trip_witness :
    ∃ wf, add_user_to_welcome_channel envGuest 1 "U" wC1 = (.ok true, wf) ∧
      "U" ∈ wf.store.pending_guests ∧
      "U" ∉ wf.store.processed_users ∧
      wf.store.current_count = wC1.store.current_count ∧
      ∃ wg, process_promoted_guest baseEnv 1 "U" wf = (.ok true, wg) ∧
        "U" ∉ wg.store.pending_guests ∧ "U" ∈ wg.store.processed_users :=
  c3_guest_deferral_round_trip envGuest baseEnv 1 1 "U" "C1" ⟨"user_is_restricted"⟩ wC1
    rfl rfl (by decide) (by decide) (by simp [wC1]) rfl rfl (Or.inl rfl)
    rfl (by decide) rfl rfl rfl




/-- C4 amended: `AlreadyMember` and the `Skipped` errors (`cant_invite_self`,
`user_not_found`, `method_not_supported_for_channel_type`) are collapsed by
`_invite_user` into the same truthy value as `Invited`, so they too increment
`current_count`, persist, and mark the user processed; only the guest and
failure outcomes do not. -/
theorem c4_amended_truthy_outcomes_count (env : Env) (fuel : Nat) (uid cid : String) (e : SlackError) (w : World)
    (hst : env.storageOk = true)
    (hid : w.store.current_channel_id = some cid) (hcid : cid ≠ "")
    (hcount : w.store.current_count < env.BATCH_SIZE)
    (hu : uid ∉ w.store.processed_users)
    (hj : env.joinResp cid = .ok ())
    (hi : env.inviteResp cid uid 0 = .error e)
    (he : e.error = "already_in_channel" ∨ e.error = "cant_invite_self" ∨
      e.error = "user_not_found" ∨ e.error = "method_not_supported_for_channel_type") :
    ∃ wf, add_user_to_welcome_channel env fuel uid w = (.ok true, wf) ∧
      wf.store.current_count = w.store.current_count + 1 ∧
      uid ∈ wf.store.processed_users := by
  obtain ⟨w1, heq1, hsp1, hce1⟩ := defaults_shape env uid hst w
  obtain ⟨w2, heq2, hs2, hce2⟩ := optin_shape env uid w1
  obtain ⟨hn1, hi1, hc1, hp1, hg1⟩ := hsp1
  have hid2 : w2.store.current_channel_id = some cid := by rw [hs2, hi1, hid]
  have hcnt2 : w2.store.current_count = w.store.current_count := by rw [hs2, hc1]
  have h0 : stIsProcessed env uid w = (.ok false, w) := by
    simp [stIsProcessed, hst, hu]
  rw [add_user_to_welcome_channel, mbind_eq_ok h0, if_neg (by simp),
    mbind_eq_ok heq1, mbind_eq_ok heq2]
  have hgs : stGetState env w2 = (.ok w2.store, w2) := by simp [stGetState, hst]
  rw [mbind_eq_ok hgs, hid2]
  have htr : truthyId (some cid) = true := by simp [truthyId, hcid]
  rw [if_pos htr, mbind_pair]
  rw [hid2, htr]
  rw [if_neg (by simp)]
  have hc2 : ¬ w2.store.current_count ≥ env.BATCH_SIZE := by
    rw [hcnt2]; exact not_le.mpr hcount
  rw [if_neg hc2, mbind_pair, hid2, htr]
  rw [if_neg (by simp)]
  rw [place_skip_eq _ hst hid2 hj hi he]
  exact ⟨_, rfl, by simp [hcnt2], by simp [List.mem_insert_self]⟩

/-- C4 amended witness: skipped invite (`cant_invite_self`) still counts the
user into channel `"C1"`. -/
theorem c4_amended_truthy_outcomes_count_witness :
    ∃ wf, add_user_to_welcome_channel envSkip 1 "U" wC1 = (.ok true, wf) ∧
      wf.store.current_count = wC1.store.current_count + 1 ∧
      "U" ∈ wf.store.processed_users :=
  c4_amended_truthy_outcomes_count envSkip 1 "U" "C1" ⟨"cant_invite_self"⟩ wC1 rfl rfl (by decide)
    (by decide) (by simp [wC1]) rfl rfl (Or.inr (Or.inl rfl))

/-- C7 amended: an invite rate-limited twice and succeeding on the third
attempt reports the truthy `Invited` outcome after exactly 3 invite calls;
together with the mandatory bot-join precondition call the operation makes 4
platform calls in total. -/
theorem c7_amended_rate_limit_retry (env : Env) (cid uid : String) (w : World)
    (hj : env.joinResp cid = .ok ())
    (h0 : env.inviteResp cid uid 0 = .error ⟨"ratelimited"⟩)
    (h1 : env.inviteResp cid uid 1 = .error ⟨"ratelimited"⟩)
    (h2 : env.inviteResp cid uid 2 = .ok ()) :
    invite_user env cid uid w =
      (.ok .pyTrue, { w with calls := w.calls ++ [ApiCall.joinChannel cid,
        ApiCall.inviteUser cid uid, ApiCall.inviteUser cid uid, ApiCall.inviteUser cid uid] }) ∧
    (invite_user env cid uid w).2.calls.length = w.calls.length + 4 := by
  have hmain : invite_user env cid uid w =
      (.ok .pyTrue, { w with calls := w.calls ++ [ApiCall.joinChannel cid,
        ApiCall.inviteUser cid uid, ApiCall.inviteUser cid uid, ApiCall.inviteUser cid uid] }) := by
    rw [invite_user, mbind_eq_ok (ensure_bot_of_ok w hj)]
    simp [invite_loop, apiCall, h0, h1, h2]
  exact ⟨hmain, by rw [hmain]; simp⟩

/-- C7 amended witness: the rate-limited script evaluated for channel
`"C2"`, user `"V"`. -/
theorem c7_amended_rate_limit_retry_witness :
    invite_user envRl "C2" "V" w0 =
      (.ok .pyTrue, { w0 with calls := w0.calls ++ [ApiCall.joinChannel "C2",
        ApiCall.inviteUser "C2" "V", ApiCall.inviteUser "C2" "V", ApiCall.inviteUser "C2" "V"] }) ∧
    (invite_user envRl "C2" "V" w0).2.calls.length = w0.calls.length + 4 :=
  c7_amended_rate_limit_retry envRl "C2" "V" w0 rfl rfl rfl rfl




theorem create_fail_eq {env : Env} {e : SlackError} (fuel : Nat) (s0 : BotState) (w1 : World)
    (hc : env.createResp (get_channel_name env s0.current_channel_number) = .error e)
    (hne : (e.error == "name_taken") = false) :
    create_or_get_channel env fuel s0 w1 = (.ok s0,
      { w1 with calls := w1.calls ++
        [ApiCall.createChannel (get_channel_name env s0.current_channel_number)] }) := by
  simp only [create_or_get_channel, apiCall, hc]
  simp [hne]

/-- C6 counterexample: when creation of the rotated channel fails, the
rotate operation does not return the state unchanged: the channel number has
been incremented (and the count zeroed) in the returned state. -/
theorem c6_counterexample :
    (rotate_to_next_channel envNoCreate 1 wFull.store w0).1 =
      .ok { current_channel_number := 2, current_channel_id := none, current_count := 0,
            processed_users := [], pending_guests := [] } ∧
    (rotate_to_next_channel envNoCreate 1 wFull.store w0).1 ≠ .ok wFull.store := by
  decide

theorem find_pages_exhaust (env : Env) (state : BotState) (nm : String) :
    ∀ cs (cursor : Option String) fuel w,
      pagesExhaust env nm cs cursor → cs.length < fuel →
      ∃ w', find_pages env state nm cursor fuel w = (.ok state, w') ∧ w'.store = w.store ∧
        CallsExtend w w' (fun x => ∃ cur, x = ApiCall.listChannels cur) := by
  intro cs
  induction cs with
  | nil =>
      intro cursor fuel w hp hf
      obtain ⟨chans, hl, hfind⟩ := hp
      cases fuel with
      | zero => omega
      | succ fuel =>
          have hlr : list_channels_retry env cursor 3 0 w =
              (.ok (some (chans, none)),
               { w with calls := w.calls ++ [ApiCall.listChannels cursor] }) := by
            simp [list_channels_retry, apiCall, hl]
          refine ⟨{ w with calls := w.calls ++ [ApiCall.listChannels cursor] }, ?_, rfl,
            calls_extend_snoc ⟨cursor, rfl⟩⟩
          simp only [find_pages, hlr, hfind]
  | cons c1 rest ih =>
      intro cursor fuel w hp hf
      obtain ⟨chans, hl, hc1, hfind, hrest⟩ := hp
      cases fuel with
      | zero => omega
      | succ fuel =>
          have hlr : list_channels_retry env cursor 3 0 w =
              (.ok (some (chans, some c1)),
               { w with calls := w.calls ++ [ApiCall.listChannels cursor] }) := by
            simp [list_channels_retry, apiCall, hl]
          obtain ⟨w', hw', hs', hce'⟩ := ih (some c1)
            fuel { w with calls := w.calls ++ [ApiCall.listChannels cursor] } hrest
            (by simp at hf ⊢; omega)
          refine ⟨w', ?_, by rw [hs'],
            calls_extend_trans (calls_extend_snoc ⟨cursor, rfl⟩) hce'⟩
          simp only [find_pages, hlr, hfind]
          have hne : ¬ (c1 == "") = true := by simp [hc1]
          rw [if_neg hne, hw']

theorem create_unlocated_eq {env : Env} {e : SlackError} {cs : List String} (fuel : Nat)
    (s0 : BotState) (w1 : World)
    (hc : env.createResp (get_channel_name env s0.current_channel_number) = .error e)
    (hnt : (e.error == "name_taken") = true)
    (hex : pagesExhaust env (get_channel_name env s0.current_channel_number) cs none)
    (hfuel : cs.length < fuel) :
    ∃ w2, create_or_get_channel env fuel s0 w1 = (.ok s0, w2) ∧ w2.store = w1.store ∧
      CallsExtend w1 w2 (fun x => (∃ nm, x = ApiCall.createChannel nm) ∨
        ∃ cur, x = ApiCall.listChannels cur) := by
  obtain ⟨w', hfp, hws, hce⟩ := find_pages_exhaust env s0
    (get_channel_name env s0.current_channel_number) cs none fuel
    { w1 with calls := w1.calls ++
        [ApiCall.createChannel (get_channel_name env s0.current_channel_number)] } hex hfuel
  refine ⟨w', ?_, by rw [hws], ?_⟩
  · simp only [create_or_get_channel, apiCall, hc]
    rw [if_pos hnt]
    simp only [find_existing_channel, hfp]
  · exact calls_extend_trans (calls_extend_snoc (Or.inl ⟨_, rfl⟩))
      (calls_extend_mono (fun x hx => Or.inr hx) hce)

/-- C6 amended: when a channel can be neither created (creation fails with a
non-conflict error) nor located (a `name_taken` conflict whose paginated
listing contains no matching channel), the ensure operation returns its
input state unchanged, while the rotate operation returns the state with
`current_channel_number` incremented by 1, `current_channel_id` cleared and
`current_count` zeroed; either way `current_channel_id` is absent, and the
enclosing new-full-member operation reports failure without attempting any
invite, without advancing `current_count`, and leaving the user
unprocessed. -/
theorem c6_amended_failure_policy (env : Env) (fuel : Nat) (uid cid : String)
    (e : SlackError) (cs : List String) (w : World)
    (hst : env.storageOk = true)
    (he : ∀ nm, env.createResp nm = .error e)
    (hloc : (e.error == "name_taken") = true → ∀ nm, pagesExhaust env nm cs none)
    (hfuel : cs.length < fuel)
    (hd : env.DEFAULT_CHANNELS = [])
    (hid : w.store.current_channel_id = some cid) (hcid : cid ≠ "")
    (hcount : w.store.current_count ≥ env.BATCH_SIZE)
    (hu : uid ∉ w.store.processed_users)
    (hw : w.calls = []) :
    (∀ s0 w1, (create_or_get_channel env fuel s0 w1).1 = .ok s0) ∧
    (∀ s0 w1, (rotate_to_next_channel env fuel s0 w1).1 =
      .ok { s0 with current_channel_number := s0.current_channel_number + 1,
                    current_channel_id := none, current_count := 0 }) ∧
    ∃ wf, add_user_to_welcome_channel env fuel uid w = (.ok false, wf) ∧
      uid ∉ wf.store.processed_users ∧
      wf.store.current_count ≤ w.store.current_count ∧
      ∀ c u', ApiCall.inviteUser c u' ∉ wf.calls := by
  have hcrfail : ∀ s0 w1, ∃ w2, create_or_get_channel env fuel s0 w1 = (.ok s0, w2) ∧
      w2.store = w1.store ∧
      CallsExtend w1 w2 (fun x => (∃ nm, x = ApiCall.createChannel nm) ∨
        ∃ cur, x = ApiCall.listChannels cur) := by
    intro s0 w1
    by_cases hnt : (e.error == "name_taken") = true
    · exact create_unlocated_eq fuel s0 w1 (he _) hnt (hloc hnt _) hfuel
    · refine ⟨_, create_fail_eq fuel s0 w1 (he _) (by simpa using hnt), rfl, ?_⟩
      exact calls_extend_snoc (Or.inl ⟨_, rfl⟩)
  refine ⟨?_, ?_, ?_⟩
  · intro s0 w1
    obtain ⟨w2, hcg, -, -⟩ := hcrfail s0 w1
    rw [hcg]
  · intro s0 w1
    obtain ⟨w2, hcg, -, -⟩ := hcrfail _ w1
    rw [rotate_to_next_channel, hcg]
  · have heq1 : add_user_to_default_channels env uid w = (.ok (), w) := by
      rw [add_user_to_default_channels, hd]; rfl
    obtain ⟨w2, heq2, hs2, hce2⟩ := optin_shape env uid w
    have hid2 : w2.store.current_channel_id = some cid := by rw [hs2, hid]
    have hcnt2 : w2.store.current_count = w.store.current_count := by rw [hs2]
    have h0 : stIsProcessed env uid w = (.ok false, w) := by
      simp [stIsProcessed, hst, hu]
    rw [add_user_to_welcome_channel, mbind_eq_ok h0, if_neg (by simp),
      mbind_eq_ok heq1, mbind_eq_ok heq2]
    have hgs : stGetState env w2 = (.ok w2.store, w2) := by simp [stGetState, hst]
    rw [mbind_eq_ok hgs, hid2]
    have htr : truthyId (some cid) = true := by simp [truthyId, hcid]
    rw [if_pos htr, mbind_pair]
    rw [hid2, htr]
    rw [if_neg (by simp)]
    have hc2 : w2.store.current_count ≥ env.BATCH_SIZE := by
      rw [hcnt2]; exact hcount
    rw [if_pos hc2]
    obtain ⟨w2', hrotc, hrs, hrc⟩ := hcrfail
      { w2.store with
          current_channel_number := w2.store.current_channel_number + 1,
          current_channel_id := none, current_count := 0 } w2
    have hrot : rotate_to_next_channel env fuel w2.store w2 =
        (.ok { w2.store with
            current_channel_number := w2.store.current_channel_number + 1,
            current_channel_id := none, current_count := 0 }, w2') := by
      rw [rotate_to_next_channel]
      exact hrotc
    rw [mbind_eq_ok hrot]
    rw [if_pos (by simp [truthyId])]
    refine ⟨w2', rfl, ?_, ?_, ?_⟩
    · rw [hrs, hs2]
      exact hu
    · rw [hrs, hs2]
    · intro c u' hmem
      rcases hrc _ hmem with hmem1 | hmem1
      · rcases hce2 _ hmem1 with hmem0 | hmem0
        · rw [hw] at hmem0
          exact absurd hmem0 (List.not_mem_nil _)
        · exact ApiCall.noConfusion hmem0
      · rcases hmem1 with ⟨nm, hx⟩ | ⟨cur, hx⟩ <;> exact ApiCall.noConfusion hx

/-- C6 amended witness: creation reporting `name_taken` on the batch-2
platform whose listing is empty, full channel `"C1"`. -/
theorem c6_amended_failure_policy_witness :
    (∀ s0 w1, (create_or_get_channel envTakenEmpty 3 s0 w1).1 = .ok s0) ∧
    (∀ s0 w1, (rotate_to_next_channel envTakenEmpty 3 s0 w1).1 =
      .ok { s0 with current_channel_number := s0.current_channel_number + 1,
                    current_channel_id := none, current_count := 0 }) ∧
    ∃ wf, add_user_to_welcome_channel envTakenEmpty 3 "U" wFull = (.ok false, wf) ∧
      "U" ∉ wf.store.processed_users ∧
      wf.store.current_count ≤ wFull.store.current_count ∧
      ∀ c u', ApiCall.inviteUser c u' ∉ wf.calls :=
  c6_amended_failure_policy envTakenEmpty 3 "U" "C1" ⟨"name_taken"⟩ [] wFull
    rfl (fun _ => rfl) (fun _ nm => ⟨[], rfl, rfl⟩) (by decide) rfl rfl (by decide)
    (by decide) (by simp [wFull]) rfl

theorem seed_ok_eq {env : Env} {cid : String} {m : Int} (s : BotState) (w : World)
    (hst : env.storageOk = true) (hinfo : env.infoResp cid = .ok (some m)) :
    seed_from_channel env s cid w =
      (.ok { s with current_channel_id := some cid, current_count := max 0 (m - 1) },
       { store := { s with current_channel_id := some cid, current_count := max 0 (m - 1) },
         calls := (w.calls ++ [ApiCall.joinChannel cid]) ++ [ApiCall.channelInfo cid] }) := by
  obtain ⟨b, hb⟩ := ensure_bot_shape env cid w
  rw [seed_from_channel, mbind_eq_ok hb]
  simp [apiCall, hinfo, mbind, stSaveState, hst]

theorem handle_found_ok {env : Env} {m : Int} (s : BotState) (ch : SlackChannel) (w : World)
    (hst : env.storageOk = true)
    (hun : ch.is_archived = true → env.unarchiveResp ch.id = .ok ())
    (hinfo : env.infoResp ch.id = .ok (some m)) :
    ∃ wf, handle_found_channel env s ch w =
      (.ok { s with current_channel_id := some ch.id, current_count := max 0 (m - 1) }, wf) ∧
      wf.store = { s with current_channel_id := some ch.id, current_count := max 0 (m - 1) } := by
  cases harch : ch.is_archived with
  | true =>
      rw [handle_found_channel, if_pos harch]
      simp only [apiCall, hun harch]
      rw [seed_ok_eq s _ hst hinfo]
      exact ⟨_, rfl, rfl⟩
  | false =>
      rw [handle_found_channel, if_neg (by simp [harch])]
      rw [seed_ok_eq s w hst hinfo]
      exact ⟨_, rfl, rfl⟩

theorem find_pages_reaches (env : Env) (state : BotState) (channel_name : String)
    (ch : SlackChannel) :
    ∀ cs (cursor : Option String) fuel w,
      pagesLeadTo env channel_name cs cursor ch → cs.length < fuel →
      ∃ w', find_pages env state channel_name cursor fuel w =
        handle_found_channel env state ch w' ∧ w'.store = w.store := by
  intro cs
  induction cs with
  | nil =>
      intro cursor fuel w hp hf
      obtain ⟨chans, next, hl, hfind⟩ := hp
      cases fuel with
      | zero => omega
      | succ fuel =>
          have hlr : list_channels_retry env cursor 3 0 w =
              (.ok (some (chans, next)),
               { w with calls := w.calls ++ [ApiCall.listChannels cursor] }) := by
            simp [list_channels_retry, apiCall, hl]
          exact ⟨{ w with calls := w.calls ++ [ApiCall.listChannels cursor] },
            by simp only [find_pages, hlr, hfind], rfl⟩
  | cons c1 rest ih =>
      intro cursor fuel w hp hf
      obtain ⟨chans, hl, hc1, hfind, hrest⟩ := hp
      cases fuel with
      | zero => omega
      | succ fuel =>
          have hlr : list_channels_retry env cursor 3 0 w =
              (.ok (some (chans, some c1)),
               { w with calls := w.calls ++ [ApiCall.listChannels cursor] }) := by
            simp [list_channels_retry, apiCall, hl]
          obtain ⟨w', hw', hs'⟩ := ih (some c1)
            fuel { w with calls := w.calls ++ [ApiCall.listChannels cursor] } hrest
            (by simp at hf ⊢; omega)
          refine ⟨w', ?_, by rw [hs']⟩
          simp only [find_pages, hlr, hfind]
          have hne : ¬ (c1 == "") = true := by simp [hc1]
          rw [if_neg hne, hw']

/-- C5: when channel creation reports `name_taken`, the ensure operation
ends with `current_channel_id` set to the id of the existing channel found
through the paginated listing (un-archived when needed, bot join attempted)
and `current_count` seeded to that channel's member count minus one for the
bot, floored at zero; the resulting state is persisted. -/
theorem c5_conflict_recovery (env : Env) (fuel : Nat) (s : BotState) (ch : SlackChannel)
    (cs : List String) (e : SlackError) (m : Int) (w : World)
    (hst : env.storageOk = true)
    (hcreate : env.createResp (get_channel_name env s.current_channel_number) = .error e)
    (hee : e.error = "name_taken")
    (hp : pagesLeadTo env (get_channel_name env s.current_channel_number) cs none ch)
    (hfuel : cs.length < fuel)
    (hun : ch.is_archived = true → env.unarchiveResp ch.id = .ok ())
    (hinfo : env.infoResp ch.id = .ok (some m)) :
    ∃ wf, create_or_get_channel env fuel s w =
      (.ok { s with current_channel_id := some ch.id, current_count := max 0 (m - 1) }, wf) ∧
      wf.store = { s with current_channel_id := some ch.id, current_count := max 0 (m - 1) } := by
  obtain ⟨w', hfp, hws⟩ := find_pages_reaches env s
    (get_channel_name env s.current_channel_number) ch cs none fuel
    { w with calls := w.calls ++
        [ApiCall.createChannel (get_channel_name env s.current_channel_number)] } hp hfuel
  obtain ⟨wf, hh, hhs⟩ := handle_found_ok s ch w' hst hun hinfo
  refine ⟨wf, ?_, hhs⟩
  simp only [create_or_get_channel, apiCall, hcreate, hee]
  simp only [find_existing_channel, hfp, hh]
  simp



/-- C5 witness: conflict on `"welcome"`, existing archived channel `"X2"`
on the second listing page with 5 members. -/
theorem c5_conflict_recovery_witness :
    ∃ wf, create_or_get_channel envTaken 2 ({} : BotState) w0 =
      (.ok { ({} : BotState) with current_channel_id := some "X2",
                                  current_count := max 0 (5 - 1) }, wf) ∧
      wf.store = { ({} : BotState) with current_channel_id := some "X2",
                                        current_count := max 0 (5 - 1) } :=
  c5_conflict_recovery envTaken 2 {} ⟨"X2", "welcome", true⟩ ["p2"] ⟨"name_taken"⟩ 5 w0
    rfl rfl rfl
    ⟨[⟨"X1", "other", false⟩], by decide, by decide, by decide,
      ⟨[⟨"X2", "welcome", true⟩], none, by decide, by decide⟩⟩
    (by decide) (fun _ => rfl) rfl




theorem mbind_no_slack {α β : Type} {x : Res α} {f : α → World → Res β}
    (hx : NotSlackError x.1) (hf : ∀ a w, NotSlackError (f a w).1) :
    NotSlackError (mbind x f).1 := by
  rcases x with ⟨r, w⟩
  cases r with
  | ok a => exact hf a w
  | error e =>
      cases e with
      | slack e => exact hx.elim
      | storage => exact trivial

theorem stGetState_no_slack (env : Env) (w : World) :
    NotSlackError (stGetState env w).1 := by
  by_cases hs : env.storageOk = true <;> simp [stGetState, hs, NotSlackError]

theorem stSaveState_no_slack (env : Env) (s : BotState) (w : World) :
    NotSlackError (stSaveState env s w).1 := by
  by_cases hs : env.storageOk = true <;> simp [stSaveState, hs, NotSlackError]

theorem stIsProcessed_no_slack (env : Env) (u : String) (w : World) :
    NotSlackError (stIsProcessed env u w).1 := by
  by_cases hs : env.storageOk = true <;> simp [stIsProcessed, hs, NotSlackError]

theorem stMarkProcessed_no_slack (env : Env) (u : String) (w : World) :
    NotSlackError (stMarkProcessed env u w).1 := by
  by_cases hs : env.storageOk = true <;> simp [stMarkProcessed, hs, NotSlackError]

theorem stAddPendingGuest_no_slack (env : Env) (u : String) (w : World) :
    NotSlackError (stAddPendingGuest env u w).1 := by
  by_cases hs : env.storageOk = true <;> simp [stAddPendingGuest, hs, NotSlackError]

theorem stRemovePendingGuest_no_slack (env : Env) (u : String) (w : World) :
    NotSlackError (stRemovePendingGuest env u w).1 := by
  by_cases hs : env.storageOk = true <;> simp [stRemovePendingGuest, hs, NotSlackError]

theorem stIsPendingGuest_no_slack (env : Env) (u : String) (w : World) :
    NotSlackError (stIsPendingGuest env u w).1 := by
  by_cases hs : env.storageOk = true <;> simp [stIsPendingGuest, hs, NotSlackError]

theorem ensure_bot_no_slack (env : Env) (c : String) (w : World) :
    NotSlackError (ensure_bot_in_channel env c w).1 := by
  obtain ⟨b, hb⟩ := ensure_bot_shape env c w
  rw [hb]
  trivial

theorem invite_loop_no_slack (env : Env) (c u : String) :
    ∀ rem attempt w, NotSlackError (invite_loop env c u rem attempt w).1 := by
  intro rem
  induction rem with
  | zero => intro attempt w; trivial
  | succ rem ih =>
      intro attempt w
      cases h : env.inviteResp c u attempt with
      | ok a => simp only [invite_loop, apiCall, h]; trivial
      | error e =>
          simp only [invite_loop, apiCall, h]
          by_cases h1 : (e.error == "already_in_channel") = true
          · rw [if_pos h1]; trivial
          rw [if_neg h1]
          by_cases h2 : (e.error == "ratelimited") = true
          · rw [if_pos h2]; exact ih _ _
          rw [if_neg h2]
          by_cases h3 : (e.error == "user_is_restricted" ||
              e.error == "user_is_ultra_restricted") = true
          · rw [if_pos h3]
            exact mbind_no_slack (stAddPendingGuest_no_slack env u _) (fun _ _ => trivial)
          rw [if_neg h3]
          by_cases h4 : (e.error == "cant_invite_self" || e.error == "user_not_found" ||
              e.error == "method_not_supported_for_channel_type") = true
          · rw [if_pos h4]; trivial
          · rw [if_neg h4]; trivial

theorem invite_user_no_slack (env : Env) (c u : String) (w : World) :
    NotSlackError (invite_user env c u w).1 := by
  rw [invite_user]
  refine mbind_no_slack (ensure_bot_no_slack env c w) ?_
  intro b w'
  cases b with
  | true => rw [if_pos rfl]; exact invite_loop_no_slack env c u 3 0 w'
  | false => rw [if_neg (by simp)]; trivial

theorem default_go_no_slack (env : Env) (u : String) :
    ∀ cs w, NotSlackError (default_channels_go env u cs w).1 := by
  intro cs
  induction cs with
  | nil => intro w; trivial
  | cons c cs ih =>
      intro w
      rw [default_channels_go]
      exact mbind_no_slack (invite_user_no_slack env c u w) (fun _ w' => ih w')

theorem defaults_no_slack (env : Env) (u : String) (w : World) :
    NotSlackError (add_user_to_default_channels env u w).1 :=
  default_go_no_slack env u env.DEFAULT_CHANNELS w

theorem optin_no_slack (env : Env) (u : String) (w : World) :
    NotSlackError (send_optin_prompts env u w).1 := by
  obtain ⟨w', h, -, -⟩ := optin_shape env u w
  rw [h]
  trivial

theorem post_welcome_no_slack (env : Env) (cid : String) (w : World) :
    NotSlackError (post_welcome_message env cid w).1 := by
  obtain ⟨extra, h, -⟩ := post_welcome_shape env cid w
  rw [h]
  trivial

theorem seed_no_slack (env : Env) (s : BotState) (cid : String) (w : World) :
    NotSlackError (seed_from_channel env s cid w).1 := by
  rw [seed_from_channel]
  refine mbind_no_slack (ensure_bot_no_slack env cid w) ?_
  intro b w'
  cases h : env.infoResp cid with
  | ok nm =>
      simp only [apiCall, h]
      exact mbind_no_slack (stSaveState_no_slack env _ _) (fun _ _ => trivial)
  | error e => simp only [apiCall, h]; trivial

theorem handle_found_no_slack (env : Env) (s : BotState) (ch : SlackChannel) (w : World) :
    NotSlackError (handle_found_channel env s ch w).1 := by
  rw [handle_found_channel]
  by_cases harch : ch.is_archived = true
  · rw [if_pos harch]
    cases h : env.unarchiveResp ch.id with
    | ok a => simp only [apiCall, h]; exact seed_no_slack env s ch.id _
    | error e => simp only [apiCall, h]; trivial
  · rw [if_neg harch]
    exact seed_no_slack env s ch.id w

theorem find_existing_no_slack (env : Env) (s : BotState) (nm : String) (fuel : Nat)
    (w : World) : NotSlackError (find_existing_channel env s nm fuel w).1 := by
  rw [find_existing_channel]
  rcases hfp : find_pages env s nm none fuel w with ⟨r, w'⟩
  cases r with
  | ok s' => trivial
  | error e =>
      cases e with
      | slack e => trivial
      | storage => trivial

theorem create_no_slack (env : Env) (fuel : Nat) (s : BotState) (w : World) :
    NotSlackError (create_or_get_channel env fuel s w).1 := by
  cases h : env.createResp (get_channel_name env s.current_channel_number) with
  | ok cid =>
      simp only [create_or_get_channel, apiCall, h]
      exact mbind_no_slack (stSaveState_no_slack env _ _)
        (fun _ w' => mbind_no_slack (post_welcome_no_slack env cid w') (fun _ _ => trivial))
  | error e =>
      simp only [create_or_get_channel, apiCall, h]
      by_cases he : (e.error == "name_taken") = true
      · rw [if_pos he]; exact find_existing_no_slack env s _ fuel _
      · rw [if_neg he]; trivial

theorem rotate_no_slack (env : Env) (fuel : Nat) (s : BotState) (w : World) :
    NotSlackError (rotate_to_next_channel env fuel s w).1 := by
  rw [rotate_to_next_channel]
  exact create_no_slack env fuel _ w

theorem place_no_slack (env : Env) (s : BotState) (u : String) (w : World) :
    NotSlackError (place_in_channel env s u w).1 := by
  rw [place_in_channel]
  refine mbind_no_slack (invite_user_no_slack env _ u w) ?_
  intro r w'
  cases r with
  | pyTrue =>
      exact mbind_no_slack (stSaveState_no_slack env _ _)
        (fun _ w'' => mbind_no_slack (stMarkProcessed_no_slack env u w'') (fun _ _ => trivial))
  | pyFalse => trivial
  | pyGuest => trivial

theorem add_user_no_slack (env : Env) (fuel : Nat) (u : String) (w : World) :
    NotSlackError (add_user_to_welcome_channel env fuel u w).1 := by
  rw [add_user_to_welcome_channel]
  refine mbind_no_slack (stIsProcessed_no_slack env u w) ?_
  intro p w1
  cases p with
  | true => rw [if_pos rfl]; trivial
  | false =>
      rw [if_neg (by simp)]
      refine mbind_no_slack (defaults_no_slack env u w1) ?_
      intro _ w2
      refine mbind_no_slack (optin_no_slack env u w2) ?_
      intro _ w3
      refine mbind_no_slack (stGetState_no_slack env w3) ?_
      intro cs0 w4
      refine mbind_no_slack ?_ ?_
      · by_cases hc : truthyId cs0.current_channel_id = true
        · rw [if_pos hc]; trivial
        · rw [if_neg hc]; exact create_no_slack env fuel cs0 w4
      · intro cs1 w5
        by_cases hc1 : (!truthyId cs1.current_channel_id) = true
        · rw [if_pos hc1]; trivial
        · rw [if_neg hc1]
          refine mbind_no_slack ?_ ?_
          · by_cases hc2 : cs1.current_count ≥ env.BATCH_SIZE
            · rw [if_pos hc2]; exact rotate_no_slack env fuel cs1 w5
            · rw [if_neg hc2]; trivial
          · intro cs2 w6
            by_cases hc3 : (!truthyId cs2.current_channel_id) = true
            · rw [if_pos hc3]; trivial
            · rw [if_neg hc3]; exact place_no_slack env cs2 u w6

theorem process_no_slack (env : Env) (fuel : Nat) (u : String) (w : World) :
    NotSlackError (process_promoted_guest env fuel u w).1 := by
  rw [process_promoted_guest]
  refine mbind_no_slack (stIsPendingGuest_no_slack env u w) ?_
  intro p w1
  cases p with
  | false => rw [if_pos (by simp)]; trivial
  | true =>
      rw [if_neg (by simp)]
      refine mbind_no_slack (stRemovePendingGuest_no_slack env u w1) ?_
      intro _ w2
      refine mbind_no_slack (stGetState_no_slack env w2) ?_
      intro st w3
      exact mbind_no_slack (stSaveState_no_slack env _ _)
        (fun _ w4 => add_user_no_slack env fuel u w4)

/-- C8 amended: every Slack platform failure is caught inside the core
operations and converted to a boolean — for every environment, input and
world the result of the new-full-member and guest-promoted operations is
never an escaped Slack error; only a storage-backend failure propagates, as
the distinct storage exception. -/
theorem c8_amended_platform_errors_caught (env : Env) (fuel : Nat) (uid : String) (w : World) :
    NotSlackError (add_user_to_welcome_channel env fuel uid w).1 ∧
    NotSlackError (process_promoted_guest env fuel uid w).1 :=
  ⟨add_user_no_slack env fuel uid w, process_no_slack env fuel uid w⟩


theorem mbind_inv {α β : Type} {x : Res α} {f : α → World → Res β} (P : α → Prop)
    (hx2 : StateInv x.2.store) (hx1 : ∀ a, x.1 = .ok a → P a)
    (hf : ∀ a, P a → StateInv x.2.store → StateInv (f a x.2).2.store) :
    StateInv (mbind x f).2.store := by
  rcases x with ⟨r, w⟩
  cases r with
  | ok a => exact hf a (hx1 a rfl) hx2
  | error e => exact hx2

theorem apiCall_inv {α : Type} {w : World} (c : ApiCall) (r : Except SlackError α)
    (hw : StateInv w.store) : StateInv (apiCall w c r).2.store := by
  cases r <;> simp [apiCall] <;> exact hw

theorem stSaveState_inv (env : Env) (s : BotState) (w : World)
    (hs : StateInv s) (hw : StateInv w.store) : StateInv (stSaveState env s w).2.store := by
  by_cases h : env.storageOk = true <;> simp [stSaveState, h]
  · exact hs
  · exact hw

theorem ensure_bot_inv (env : Env) (c : String) (w : World) (hw : StateInv w.store) :
    StateInv (ensure_bot_in_channel env c w).2.store := by
  obtain ⟨b, hb⟩ := ensure_bot_shape env c w
  rw [hb]
  exact hw

theorem invite_loop_inv (env : Env) (c u : String) :
    ∀ rem attempt w, StateInv w.store → StateInv (invite_loop env c u rem attempt w).2.store := by
  intro rem
  induction rem with
  | zero => intro attempt w hw; exact hw
  | succ rem ih =>
      intro attempt w hw
      cases h : env.inviteResp c u attempt with
      | ok a => simp only [invite_loop, apiCall, h]; exact hw
      | error e =>
          simp only [invite_loop, apiCall, h]
          by_cases h1 : (e.error == "already_in_channel") = true
          · rw [if_pos h1]; exact hw
          rw [if_neg h1]
          by_cases h2 : (e.error == "ratelimited") = true
          · rw [if_pos h2]; exact ih _ _ hw
          rw [if_neg h2]
          by_cases h3 : (e.error == "user_is_restricted" ||
              e.error == "user_is_ultra_restricted") = true
          · rw [if_pos h3]
            by_cases hst : env.storageOk = true <;>
              simp [mbind, stAddPendingGuest, hst] <;> exact hw
          rw [if_neg h3]
          by_cases h4 : (e.error == "cant_invite_self" || e.error == "user_not_found" ||
              e.error == "method_not_supported_for_channel_type") = true
          · rw [if_pos h4]; exact hw
          · rw [if_neg h4]; exact hw

theorem invite_user_inv (env : Env) (c u : String) (w : World) (hw : StateInv w.store) :
    StateInv (invite_user env c u w).2.store := by
  rw [invite_user]
  obtain ⟨b, hb⟩ := ensure_bot_shape env c w
  rw [mbind_eq_ok hb]
  cases b with
  | true => rw [if_pos rfl]; exact invite_loop_inv env c u 3 0 _ hw
  | false => rw [if_neg (by simp)]; exact hw

theorem default_go_inv (env : Env) (u : String) :
    ∀ cs w, StateInv w.store → StateInv (default_channels_go env u cs w).2.store := by
  intro cs
  induction cs with
  | nil => intro w hw; exact hw
  | cons c cs ih =>
      intro w hw
      rw [default_channels_go]
      refine mbind_inv (fun _ => True) (invite_user_inv env c u w hw) (fun _ _ => trivial) ?_
      intro a _ hw'
      exact ih _ hw'



theorem defaults_inv (env : Env) (u : String) (w : World) (hw : StateInv w.store) :
    StateInv (add_user_to_default_channels env u w).2.store :=
  default_go_inv env u env.DEFAULT_CHANNELS w hw

theorem optin_inv (env : Env) (u : String) (w : World) (hw : StateInv w.store) :
    StateInv (send_optin_prompts env u w).2.store := by
  obtain ⟨w', h, hs, -⟩ := optin_shape env u w
  rw [h]
  rw [show w'.store = w.store from hs]
  exact hw

theorem mbind_err {α β : Type} {x : Res α} {f : α → World → Res β} {e : Exn} {w' : World}
    (h : x = (.error e, w')) : mbind x f = (.error e, w') := by
  rw [h]; rfl

theorem stSaveState_ok {env : Env} (hst : env.storageOk = true) (s : BotState) (w : World) :
    stSaveState env s w = (.ok (), { w with store := s }) := by
  simp [stSaveState, hst]

theorem stSaveState_down {env : Env} (hst : ¬ env.storageOk = true) (s : BotState) (w : World) :
    stSaveState env s w = (.error .storage, w) := by
  simp [stSaveState, hst]

theorem seed_inv (env : Env) (s : BotState) (cid : String) (w : World)
    (hs : StateInv s) (hw : StateInv w.store) :
    StateInv (seed_from_channel env s cid w).2.store ∧
    (∀ s', (seed_from_channel env s cid w).1 = .ok s' → StateInv s') := by
  obtain ⟨b, hb⟩ := ensure_bot_shape env cid w
  rw [seed_from_channel, mbind_eq_ok hb]
  cases h : env.infoResp cid with
  | ok nm =>
      simp only [apiCall, h]
      have hs2 : StateInv { s with
          current_channel_id := some cid,
          current_count := max 0 (nm.getD 1 - 1) } := ⟨hs.1, le_max_left 0 _⟩
      by_cases hst : env.storageOk = true
      · rw [mbind_eq_ok (stSaveState_ok hst _ _)]
        exact ⟨hs2, fun s' h' => (Except.ok.inj h') ▸ hs2⟩
      · rw [mbind_err (stSaveState_down hst _ _)]
        exact ⟨hw, fun s' h' => by cases h'⟩
  | error e =>
      simp only [apiCall, h]
      exact ⟨hw, fun s' h' => (Except.ok.inj h') ▸ ⟨hs.1, hs.2⟩⟩

theorem handle_found_inv (env : Env) (s : BotState) (ch : SlackChannel) (w : World)
    (hs : StateInv s) (hw : StateInv w.store) :
    StateInv (handle_found_channel env s ch w).2.store ∧
    (∀ s', (handle_found_channel env s ch w).1 = .ok s' → StateInv s') := by
  rw [handle_found_channel]
  by_cases harch : ch.is_archived = true
  · rw [if_pos harch]
    cases h : env.unarchiveResp ch.id with
    | ok a =>
        simp only [apiCall, h]
        exact seed_inv env s ch.id _ hs hw
    | error e =>
        simp only [apiCall, h]
        exact ⟨hw, fun s' h' => (Except.ok.inj h') ▸ hs⟩
  · rw [if_neg harch]
    exact seed_inv env s ch.id w hs hw

theorem list_retry_store (env : Env) (cursor : Option String) :
    ∀ rem attempt w, (list_channels_retry env cursor rem attempt w).2.store = w.store := by
  intro rem
  induction rem with
  | zero => intro attempt w; rfl
  | succ rem ih =>
      intro attempt w
      cases h : env.listResp cursor attempt with
      | ok page => simp only [list_channels_retry, apiCall, h]
      | error e =>
          simp only [list_channels_retry, apiCall, h]
          by_cases h1 : (e.error == "ratelimited") = true
          · rw [if_pos h1]; exact ih _ _
          · rw [if_neg h1]

theorem find_pages_inv (env : Env) (s : BotState) (nm : String) :
    ∀ fuel (cursor : Option String) w, StateInv s → StateInv w.store →
      StateInv (find_pages env s nm cursor fuel w).2.store ∧
      (∀ s', (find_pages env s nm cursor fuel w).1 = .ok s' → StateInv s') := by
  intro fuel
  induction fuel with
  | zero =>
      intro cursor w hs hw
      exact ⟨hw, fun s' h' => (Except.ok.inj h') ▸ hs⟩
  | succ fuel ih =>
      intro cursor w hs hw
      have hstore := list_retry_store env cursor 3 0 w
      simp only [find_pages]
      split
      next w1 heq =>
        rw [heq] at hstore
        exact ⟨hstore ▸ hw, fun s' h' => (Except.ok.inj h') ▸ hs⟩
      next chans next1 w1 heq =>
        rw [heq] at hstore
        have hw1 : StateInv w1.store := by rw [show w1.store = w.store from hstore]; exact hw
        split
        next ch hfind => exact handle_found_inv env s ch w1 hs hw1
        next hfind =>
          split
          next => exact ⟨hw1, fun s' h' => (Except.ok.inj h') ▸ hs⟩
          next c =>
            split
            next hc => exact ⟨hw1, fun s' h' => (Except.ok.inj h') ▸ hs⟩
            next hc => exact ih (some c) w1 hs hw1
      next e w1 heq =>
        rw [heq] at hstore
        exact ⟨hstore ▸ hw, fun s' h' => by cases h'⟩

theorem find_existing_inv (env : Env) (s : BotState) (nm : String) (fuel : Nat) (w : World)
    (hs : StateInv s) (hw : StateInv w.store) :
    StateInv (find_existing_channel env s nm fuel w).2.store ∧
    (∀ s', (find_existing_channel env s nm fuel w).1 = .ok s' → StateInv s') := by
  rw [find_existing_channel]
  obtain ⟨hfw, hfok⟩ := find_pages_inv env s nm fuel none w hs hw
  rcases hfp : find_pages env s nm none fuel w with ⟨r, w1⟩
  rw [hfp] at hfw hfok
  cases r with
  | ok s' => exact ⟨hfw, hfok⟩
  | error e =>
      cases e with
      | slack e => exact ⟨hfw, fun s' h' => (Except.ok.inj h') ▸ hs⟩
      | storage => exact ⟨hfw, fun s' h' => by cases h'⟩



theorem stMarkProcessed_inv (env : Env) (u : String) (w : World) (hw : StateInv w.store) :
    StateInv (stMarkProcessed env u w).2.store := by
  by_cases h : env.storageOk = true <;> simp [stMarkProcessed, h]
  · exact ⟨hw.1, hw.2⟩
  · exact hw

theorem stRemovePendingGuest_inv (env : Env) (u : String) (w : World) (hw : StateInv w.store) :
    StateInv (stRemovePendingGuest env u w).2.store := by
  by_cases h : env.storageOk = true <;> simp [stRemovePendingGuest, h]
  · exact ⟨hw.1, hw.2⟩
  · exact hw

theorem stIsProcessed_store (env : Env) (u : String) (w : World) :
    (stIsProcessed env u w).2 = w := by
  by_cases h : env.storageOk = true <;> simp [stIsProcessed, h]

theorem stIsPendingGuest_store (env : Env) (u : String) (w : World) :
    (stIsPendingGuest env u w).2 = w := by
  by_cases h : env.storageOk = true <;> simp [stIsPendingGuest, h]

theorem stGetState_store (env : Env) (w : World) : (stGetState env w).2 = w := by
  by_cases h : env.storageOk = true <;> simp [stGetState, h]

theorem stGetState_val (env : Env) (w : World) (hw : StateInv w.store) :
    ∀ a, (stGetState env w).1 = .ok a → StateInv a := by
  intro a ha
  by_cases h : env.storageOk = true <;> simp [stGetState, h] at ha
  exact ha ▸ hw

theorem create_inv (env : Env) (fuel : Nat) (s : BotState) (w : World)
    (hs : StateInv s) (hw : StateInv w.store) :
    StateInv (create_or_get_channel env fuel s w).2.store ∧
    (∀ s', (create_or_get_channel env fuel s w).1 = .ok s' → StateInv s') := by
  cases h : env.createResp (get_channel_name env s.current_channel_number) with
  | ok cid =>
      simp only [create_or_get_channel, apiCall, h]
      have hs1 : StateInv { s with current_channel_id := some cid, current_count := 0 } :=
        ⟨hs.1, le_refl 0⟩
      by_cases hst : env.storageOk = true
      · rw [mbind_eq_ok (stSaveState_ok hst _ _)]
        obtain ⟨extra, hpw, -⟩ := post_welcome_shape env cid
          { store := { s with current_channel_id := some cid, current_count := 0 },
            calls := w.calls ++ [ApiCall.createChannel (get_channel_name env s.current_channel_number)] }
        rw [mbind_eq_ok hpw]
        exact ⟨hs1, fun s' h' => (Except.ok.inj h') ▸ hs1⟩
      · rw [mbind_err (stSaveState_down hst _ _)]
        exact ⟨hw, fun s' h' => by cases h'⟩
  | error e =>
      simp only [create_or_get_channel, apiCall, h]
      by_cases he : (e.error == "name_taken") = true
      · rw [if_pos he]
        exact find_existing_inv env s _ fuel _ hs hw
      · rw [if_neg he]
        exact ⟨hw, fun s' h' => (Except.ok.inj h') ▸ hs⟩

theorem rotate_inv (env : Env) (fuel : Nat) (s : BotState) (w : World)
    (hs : StateInv s) (hw : StateInv w.store) :
    StateInv (rotate_to_next_channel env fuel s w).2.store ∧
    (∀ s', (rotate_to_next_channel env fuel s w).1 = .ok s' → StateInv s') := by
  rw [rotate_to_next_channel]
  have hs1 : StateInv { s with
      current_channel_number := s.current_channel_number + 1,
      current_channel_id := none, current_count := 0 } :=
    ⟨by show (1 : Int) ≤ s.current_channel_number + 1; have := hs.1; omega, le_refl 0⟩
  exact create_inv env fuel _ w hs1 hw

theorem place_inv (env : Env) (s : BotState) (u : String) (w : World)
    (hs : StateInv s) (hw : StateInv w.store) :
    StateInv (place_in_channel env s u w).2.store := by
  rw [place_in_channel]
  refine mbind_inv (fun _ => True) (invite_user_inv env _ u w hw) (fun _ _ => trivial) ?_
  intro r _ hw1
  cases r with
  | pyGuest => exact hw1
  | pyFalse => exact hw1
  | pyTrue =>
      have hs1 : StateInv { s with current_count := s.current_count + 1 } :=
        ⟨hs.1, by show (0 : Int) ≤ s.current_count + 1; have := hs.2; omega⟩
      by_cases hst : env.storageOk = true
      · rw [mbind_eq_ok (stSaveState_ok hst _ _)]
        refine mbind_inv (fun _ => True) ?_ (fun _ _ => trivial) ?_
        · exact stMarkProcessed_inv env u _ hs1
        · intro _ _ hw2
          exact hw2
      · rw [mbind_err (stSaveState_down hst _ _)]
        exact hw1

theorem add_user_inv (env : Env) (fuel : Nat) (u : String) (w : World)
    (hw : StateInv w.store) :
    StateInv (add_user_to_welcome_channel env fuel u w).2.store := by
  rw [add_user_to_welcome_channel]
  refine mbind_inv (fun _ => True) ?_ (fun _ _ => trivial) ?_
  · rw [stIsProcessed_store]; exact hw
  intro p _ hw1
  cases p with
  | true => rw [if_pos rfl]; exact hw1
  | false =>
      rw [if_neg (by simp)]
      refine mbind_inv (fun _ => True) (defaults_inv env u _ hw1) (fun _ _ => trivial) ?_
      intro _ _ hw2
      refine mbind_inv (fun _ => True) (optin_inv env u _ hw2) (fun _ _ => trivial) ?_
      intro _ _ hw3
      refine mbind_inv StateInv ?_ ?_ ?_
      · rw [stGetState_store]; exact hw3
      · exact stGetState_val env _ hw3
      intro cs0 hcs0 hw4
      refine mbind_inv StateInv ?_ ?_ ?_
      · split
        · exact hw4
        · exact (create_inv env fuel cs0 _ hcs0 hw4).1
      · split
        · exact fun s' h' => (Except.ok.inj h') ▸ hcs0
        · exact (create_inv env fuel cs0 _ hcs0 hw4).2
      intro cs1 hcs1 hw5
      by_cases hc1 : (!truthyId cs1.current_channel_id) = true
      · rw [if_pos hc1]; exact hw5
      rw [if_neg hc1]
      refine mbind_inv StateInv ?_ ?_ ?_
      · split
        · exact (rotate_inv env fuel cs1 _ hcs1 hw5).1
        · exact hw5
      · split
        · exact (rotate_inv env fuel cs1 _ hcs1 hw5).2
        · exact fun s' h' => (Except.ok.inj h') ▸ hcs1
      intro cs2 hcs2 hw6
      by_cases hc3 : (!truthyId cs2.current_channel_id) = true
      · rw [if_pos hc3]; exact hw6
      · rw [if_neg hc3]
        exact place_inv env cs2 u _ hcs2 hw6

theorem process_inv (env : Env) (fuel : Nat) (u : String) (w : World)
    (hw : StateInv w.store) :
    StateInv (process_promoted_guest env fuel u w).2.store := by
  rw [process_promoted_guest]
  refine mbind_inv (fun _ => True) ?_ (fun _ _ => trivial) ?_
  · rw [stIsPendingGuest_store]; exact hw
  intro p _ hw1
  cases p with
  | false => rw [if_pos (by simp)]; exact hw1
  | true =>
      rw [if_neg (by simp)]
      refine mbind_inv (fun _ => True) (stRemovePendingGuest_inv env u _ hw1) (fun _ _ => trivial) ?_
      intro _ _ hw2
      refine mbind_inv StateInv ?_ ?_ ?_
      · rw [stGetState_store]; exact hw2
      · exact stGetState_val env _ hw2
      intro st hst hw3
      by_cases hsk : env.storageOk = true
      · rw [mbind_eq_ok (stSaveState_ok hsk _ _)]
        exact add_user_inv env fuel u _ ⟨hst.1, hst.2⟩
      · rw [mbind_err (stSaveState_down hsk _ _)]
        exact hw3

/-- C10: the rotation-state invariant (`current_channel_number >= 1`,
`current_count >= 0`) holds of the initial state and is preserved by the
new-full-member and guest-promotion operations against every platform
environment, including ones with failing storage or platform calls. -/
theorem c10_state_invariant (env : Env) (fuel : Nat) (uid : String) (w : World) :
    StateInv ({} : BotState) ∧
    (StateInv w.store →
      StateInv (add_user_to_welcome_channel env fuel uid w).2.store ∧
      StateInv (process_promoted_guest env fuel uid w).2.store) :=
  ⟨⟨by decide, by decide⟩,
    fun hw => ⟨add_user_inv env fuel uid w hw, process_inv env fuel uid w hw⟩⟩

/-- C10 witness: the invariant run from the initial state on the
all-succeeding platform. -/
theorem c10_state_invariant_witness :
    StateInv ({} : BotState) ∧
    (StateInv w0.store →
      StateInv (add_user_to_welcome_channel baseEnv 1 "U" w0).2.store ∧
      StateInv (process_promoted_guest baseEnv 1 "U" w0).2.store) :=
  c10_state_invariant baseEnv 1 "U" w0


end Welcomer
